import Mathlib

/-!
# AsAReply: the WhatsApp session bridge

A shallow embedding of the two Node services of the repository,
`src/whatsapp_baileys.js` (namespace `Baileys`) and
`src/whatsapp_baileys_simple.js` (namespace `Simple`).

Modelling conventions.

* The module-level `let` variables of each service are the fields of its `State`.
* Every handler (an Express route or a transport event listener) is a function
  from the state and its input to an outcome: the new state, the list of
  external calls it made, in order, and the error it raised, if any.
* The transport client (Baileys), the HTTP client (axios) and the clock are
  external collaborators. Whatever they answer is an argument of the handler:
  `axiosPost` says whether a POST to the backend resolves, rejects or is never
  answered, `send` and `logout` whether the transport call resolves or rejects,
  `SetupResult` whether the client could be created.
* A handler is run until it returns, raises, or waits on a call that never settles
  (`completes` is then false); interleavings at `await` points are outside this
  model.
* `req.body` is the object produced by `express.json()`; a field of it is a JSON
  primitive or absent. Arrays and objects as field values are not modelled.
* Strings are sequences of characters. The only character classes the source
  uses (`\D`, `'@'`, `':'`) are single ASCII code units, so working on characters
  instead of UTF-16 code units does not change any result.
* `console.log` output is not recorded.
-/

namespace AsAReply

/-! ## JavaScript values -/

/-- A request-body field: a JSON primitive, or `undefined` when the field is absent. -/
inductive JSVal where
  | undefined
  | null
  | bool (b : Bool)
  | num (n : Int)
  | str (s : String)
  deriving DecidableEq, Repr

/-- JavaScript truthiness of a primitive. -/
def JSVal.truthy : JSVal → Bool
  | .undefined => false
  | .null => false
  | .bool b => b
  | .num n => decide (n ≠ 0)
  | .str s => decide (s ≠ "")

/-- Truthiness of a value that is a string, `null` or `undefined`. -/
def strTruthy : Option String → Bool
  | some s => decide (s ≠ "")
  | none => false

/-! ## String primitives used by the source -/

/-- Does `text` start with `pat`? -/
def startsWithChars : List Char → List Char → Bool
  | [], _ => true
  | _ :: _, [] => false
  | p :: ps, c :: cs => decide (p = c) && startsWithChars ps cs

/-- `String.prototype.includes` on character lists: `pat` occurs somewhere in the text. -/
def includesChars (pat : List Char) : List Char → Bool
  | [] => pat.isEmpty
  | c :: cs => startsWithChars pat (c :: cs) || includesChars pat cs

/-- `String.prototype.replace` with a string pattern: only the first occurrence of
`pat` is replaced by `rep`. -/
def replaceFirstChars (pat rep : List Char) : List Char → List Char
  | [] => if pat.isEmpty then rep else []
  | c :: cs =>
    if startsWithChars pat (c :: cs) then rep ++ (c :: cs).drop pat.length
    else c :: replaceFirstChars pat rep cs

/-- `String.prototype.replace(/\D/g, rep)`: every character outside `0`-`9` is
replaced by `rep`. -/
def replaceNonDigitChars (rep : List Char) : List Char → List Char
  | [] => []
  | c :: cs => (if c.isDigit then [c] else rep) ++ replaceNonDigitChars rep cs

/-- `split(sep)[0]`: the part of the text before the first `sep`. -/
def splitHeadChars (sep : Char) : List Char → List Char
  | [] => []
  | c :: cs => if c = sep then [] else c :: splitHeadChars sep cs

/-- `s.includes(pat)`. -/
def jsIncludes (s pat : String) : Bool := includesChars pat.data s.data

/-- `s.replace(pat, rep)` for a string pattern. -/
def jsReplaceFirst (s pat rep : String) : String := ⟨replaceFirstChars pat.data rep.data s.data⟩

/-- `s.replace(/\D/g, rep)`. -/
def jsReplaceNonDigits (s rep : String) : String := ⟨replaceNonDigitChars rep.data s.data⟩

/-- `s.split(sep)[0]` for a one-character separator. -/
def jsSplitHead (s : String) (sep : Char) : String := ⟨splitHeadChars sep s.data⟩

/-! ## Transport objects and events -/

/-- The account object the transport exposes as `socket.user`. -/
structure Contact where
  id : Option String
  name : Option String
  deriving DecidableEq, Repr

/-- A transport client as returned by `makeWASocket`. `ref` is the identity of the
object, `user` the current value of its `user` property. -/
structure Socket where
  ref : Nat
  user : Option Contact
  deriving DecidableEq, Repr

/-- `error.output` of a close reason. -/
structure BoomOutput where
  statusCode : Option Int
  deriving DecidableEq, Repr

/-- `lastDisconnect.error`. -/
structure Boom where
  output : Option BoomOutput
  deriving DecidableEq, Repr

/-- `update.lastDisconnect`. -/
structure LastDisconnect where
  error : Option Boom
  deriving DecidableEq, Repr

/-- The argument of a `connection.update` event. -/
structure ConnectionUpdate where
  connection : Option String
  lastDisconnect : Option LastDisconnect
  qr : Option String
  deriving DecidableEq, Repr

/-- `(lastDisconnect?.error)?.output?.statusCode`. -/
def closeStatusCode (ld : Option LastDisconnect) : Option Int :=
  match ld with
  | none => none
  | some l =>
    match l.error with
    | none => none
    | some e =>
      match e.output with
      | none => none
      | some o => o.statusCode

/-- `message.key`. -/
structure MessageKey where
  remoteJid : Option String
  fromMe : Option Bool
  id : Option String
  deriving DecidableEq, Repr

/-- `message.message.extendedTextMessage`. -/
structure ExtendedTextMessage where
  text : Option String
  deriving DecidableEq, Repr

/-- `message.message`. -/
structure MessageContent where
  conversation : Option String
  extendedTextMessage : Option ExtendedTextMessage
  deriving DecidableEq, Repr

/-- One element of `m.messages`. -/
structure WAMessage where
  key : MessageKey
  message : Option MessageContent
  pushName : Option String
  deriving DecidableEq, Repr

/-- The argument of a `messages.upsert` event. -/
structure MessagesUpsert where
  messages : List WAMessage
  deriving DecidableEq, Repr

/-- What creating the transport client does: `useMultiFileAuthState` rejects,
`makeWASocket` throws, or a client is returned whose `user` is the account of the
stored credentials (absent before the first pairing). -/
inductive SetupResult where
  | authError (message : String)
  | socketError (message : String)
  | ok (user : Option Contact)
  deriving DecidableEq, Repr

/-! ## Calls to the outside world -/

/-- The JSON body of a notification to the backend. -/
inductive Payload where
  | qrReady (qr_code : String)
  | disconnected (reason : String)
  | connected (phone : String) (user : Option Contact)
  | messageReceived (phone message contact_name : String) (message_id : Option String)
      (timestamp : String)
  | error (error : String)
  deriving DecidableEq, Repr

/-- An external call made by a handler. -/
inductive Effect where
  | post (url : String) (data : Payload)
  | setTimeout (ms : Nat)
  | makeWASocket
  | sendMessage (jid : String) (text : JSVal)
  | sendPresenceUpdate (presence : String) (jid : String)
  | logout
  deriving DecidableEq, Repr

/-- What becomes of a POST to the backend: `some (.ok ())` when it is answered with
success, `some (.error msg)` when it fails (network error or a non-2xx status), `none`
when the backend never answers. -/
abbrev AxiosPost := String → Payload → Option (Except String Unit)

/-- A backend that answers every POST, with success or with a failure. -/
def settled (answer : String → Payload → Except String Unit) : AxiosPost :=
  fun url data => some (answer url data)

/-- An awaited call: the external calls made, and whether the awaited promise ever
settles, so that the code after the `await` runs. -/
structure Awaited where
  effects : List Effect
  settles : Bool
  deriving DecidableEq, Repr

/-- The outcome of a transport event listener. `completes` is false when the listener
is left waiting on a call that never settles; what it did up to there is recorded. -/
structure Outcome (σ : Type) where
  state : σ
  effects : List Effect
  raised : Option String
  completes : Bool := true

/-- The backend notifications attempted in a list of calls. -/
def posts : List Effect → List (String × Payload)
  | [] => []
  | .post url data :: es => (url, data) :: posts es
  | _ :: es => posts es

/-- The delays of the `setTimeout(connectToWhatsApp, ms)` calls in a list of calls. -/
def timeouts : List Effect → List Nat
  | [] => []
  | .setTimeout ms :: es => ms :: timeouts es
  | _ :: es => timeouts es

/-- The calls made to the transport in a list of calls. -/
def transportCalls : List Effect → List Effect
  | [] => []
  | .post _ _ :: es => transportCalls es
  | .setTimeout _ :: es => transportCalls es
  | e :: es => e :: transportCalls es

/-! ## HTTP responses -/

/-- The body of `GET /status`. -/
structure StatusReport where
  connected : Bool
  status : String
  qr_available : Bool
  user : Option Contact
  deriving DecidableEq, Repr

/-- A JSON response body of the command routes. -/
inductive ResBody where
  | error (error : String)
  | success (message : Option String)
  deriving DecidableEq, Repr

/-- An HTTP response: status code and body. -/
structure Response where
  status : Nat
  body : ResBody
  deriving DecidableEq, Repr

/-- The outcome of a route handler; `response` is `none` when the handler raised
before answering. -/
structure HttpOutcome (σ : Type) where
  state : σ
  effects : List Effect
  response : Option Response
  raised : Option String

/-- The body of `POST /send-message`. -/
structure SendBody where
  phone : JSVal
  message : JSVal
  deriving DecidableEq, Repr

/-- The body of `POST /set-typing`. -/
structure TypingBody where
  phone : JSVal
  typing : JSVal
  deriving DecidableEq, Repr

/-- The message of the `TypeError` raised by a property access or call on a value
that does not support it. The engine's wording is not modelled. -/
def typeError : String := "TypeError"

/-- `socket.user?.id?.split(':')[0] || 'unknown'`. -/
def connectedPhone (user : Option Contact) : String :=
  match user with
  | none => "unknown"
  | some u =>
    match u.id with
    | none => "unknown"
    | some i => if jsSplitHead i ':' ≠ "" then jsSplitHead i ':' else "unknown"

/-- `x || d` for a value `x` that is a string, `null` or `undefined`. -/
def strOr (x : Option String) (d : String) : String :=
  match x with
  | some v => if v ≠ "" then v else d
  | none => d

/-- The number of clients a client creation returns: one, or none when it fails. -/
def SetupResult.created : SetupResult → Nat
  | .ok _ => 1
  | _ => 0

/-! ## `src/whatsapp_baileys.js` -/

namespace Baileys

/-- The module-level variables (lines 13-16). -/
structure State where
  socket : Option Socket
  qrCodeData : Option String
  isConnected : Bool
  connectionStatus : String
  deriving DecidableEq, Repr

/-- The values the variables are declared with. -/
def State.initial : State :=
  { socket := none, qrCodeData := none, isConnected := false, connectionStatus := "disconnected" }

/-- The constant `FLASK_SERVER` (line 19). -/
def FLASK_SERVER : String := "http://localhost:5000"

/-- The function `notifyFlask` (lines 22-30): one POST, made without a timeout. A
rejection is caught and only logged; a POST that is never answered leaves the call,
and whoever awaits it, waiting for ever. -/
def notifyFlask (axiosPost : AxiosPost) (endpoint : String) (data : Payload) : Awaited :=
  match axiosPost (FLASK_SERVER ++ endpoint) data with
  | some (.ok _) => { effects := [.post (FLASK_SERVER ++ endpoint) data], settles := true }
  | some (.error _) => { effects := [.post (FLASK_SERVER ++ endpoint) data], settles := true }
  | none => { effects := [.post (FLASK_SERVER ++ endpoint) data], settles := false }

/-- The function `connectToWhatsApp` (lines 33-113). `fresh` is the identity of the
client object `makeWASocket` returns. Registering the listeners has no effect of its
own; the listeners are `onConnectionUpdate` and `onMessagesUpsert` below. In the
`catch` block the notification is awaited last. -/
def connectToWhatsApp (axiosPost : AxiosPost) (fresh : Nat) (r : SetupResult) (s : State) :
    Outcome State :=
  match r with
  | .ok user =>
    { state := { s with socket := some { ref := fresh, user := user } },
      effects := [.makeWASocket], raised := none }
  | .socketError msg =>
    { state := { s with connectionStatus := "error" },
      effects := .makeWASocket :: (notifyFlask axiosPost "/webhook/error" (.error msg)).effects,
      raised := none,
      completes := (notifyFlask axiosPost "/webhook/error" (.error msg)).settles }
  | .authError msg =>
    { state := { s with connectionStatus := "error" },
      effects := (notifyFlask axiosPost "/webhook/error" (.error msg)).effects,
      raised := none,
      completes := (notifyFlask axiosPost "/webhook/error" (.error msg)).settles }

/-- The `if (qr)` block of the `connection.update` listener (lines 48-55). The block
ends on `await notifyFlask`. -/
def qrPart (axiosPost : AxiosPost) (s : State) (update : ConnectionUpdate) : Outcome State :=
  match update.qr with
  | some qr =>
    if qr ≠ "" then
      { state := { s with qrCodeData := some qr, connectionStatus := "qr_ready" },
        effects := (notifyFlask axiosPost "/webhook/qr-ready" (.qrReady qr)).effects,
        raised := none,
        completes := (notifyFlask axiosPost "/webhook/qr-ready" (.qrReady qr)).settles }
    else { state := s, effects := [], raised := none }
  | none => { state := s, effects := [], raised := none }

/-- The `connection.update` listener (lines 45-79). `loggedOut` is the library
constant `DisconnectReason.loggedOut`. The `close` and `open` branches run once the
`if (qr)` block is through. In the `close` branch the two assignments come first,
then `await notifyFlask`, and only then `setTimeout`. In the `open` branch the three
assignments are made before `socket.user` is read, which raises when `socket` is
`null`. -/
def onConnectionUpdate (loggedOut : Int) (axiosPost : AxiosPost) (s : State)
    (update : ConnectionUpdate) : Outcome State :=
  let q := qrPart axiosPost s update
  if q.completes = false then q
  else if update.connection = some "close" then
    let shouldReconnect : Bool := decide (closeStatusCode update.lastDisconnect ≠ some loggedOut)
    let n := notifyFlask axiosPost "/webhook/disconnected" (.disconnected "connection_closed")
    { state := { q.state with isConnected := false, connectionStatus := "disconnected" },
      effects := q.effects ++ n.effects
        ++ (if n.settles && shouldReconnect then [.setTimeout 3000] else []),
      raised := none,
      completes := n.settles }
  else if update.connection = some "open" then
    let s2 : State :=
      { q.state with isConnected := true, connectionStatus := "connected", qrCodeData := none }
    match s2.socket with
    | none => { state := s2, effects := q.effects, raised := some typeError }
    | some sock =>
      let n := notifyFlask axiosPost "/webhook/connected"
        (.connected (connectedPhone sock.user) sock.user)
      { state := s2, effects := q.effects ++ n.effects, raised := none, completes := n.settles }
  else q

/-- The `messages.upsert` listener (lines 85-106). `now` is `new Date().toISOString()`. -/
def onMessagesUpsert (axiosPost : AxiosPost) (now : String) (s : State) (m : MessagesUpsert) :
    Outcome State :=
  match m.messages with
  | [] => { state := s, effects := [], raised := some typeError }
  | message :: _ =>
    if message.key.fromMe ≠ some true then
      match message.message with
      | none => { state := s, effects := [], raised := none }
      | some content =>
        let messageText : String :=
          strOr content.conversation
            (strOr (match content.extendedTextMessage with
                    | some ext => ext.text
                    | none => none) "")
        if messageText ≠ "" then
          match message.key.remoteJid with
          | none => { state := s, effects := [], raised := some typeError }
          | some phoneNumber =>
            let n := notifyFlask axiosPost "/webhook/message-received"
              (.messageReceived (jsReplaceFirst phoneNumber "@s.whatsapp.net" "") messageText
                (strOr message.pushName "") message.key.id now)
            { state := s, effects := n.effects, raised := none, completes := n.settles }
        else { state := s, effects := [], raised := none }
    else { state := s, effects := [], raised := none }

/-- The route `GET /status` (lines 116-123). -/
def getStatus (s : State) : StatusReport :=
  { connected := s.isConnected,
    status := s.connectionStatus,
    qr_available := strTruthy s.qrCodeData,
    user := match s.socket with
      | some sock => sock.user
      | none => none }

/-- The route `POST /send-message` (lines 142-159). `send` is the answer of
`socket.sendMessage`. Everything after the connection check is inside `try`, so a
`TypeError` there is answered with status 500. -/
def postSendMessage (send : String → JSVal → Except String Unit) (s : State) (body : SendBody) :
    HttpOutcome State :=
  if !s.isConnected then
    { state := s, effects := [],
      response := some { status := 400, body := .error "WhatsApp não conectado" }, raised := none }
  else
    match body.phone with
    | .str phone =>
      let jid : String := if jsIncludes phone "@" then phone else phone ++ "@s.whatsapp.net"
      match s.socket with
      | none =>
        { state := s, effects := [],
          response := some { status := 500, body := .error typeError }, raised := none }
      | some _ =>
        match send jid body.message with
        | .ok _ =>
          { state := s, effects := [.sendMessage jid body.message],
            response := some { status := 200, body := .success (some "Mensagem enviada") },
            raised := none }
        | .error e =>
          { state := s, effects := [.sendMessage jid body.message],
            response := some { status := 500, body := .error e }, raised := none }
    | _ =>
      { state := s, effects := [],
        response := some { status := 500, body := .error typeError }, raised := none }

/-- The route `POST /connect` (lines 161-168). The response is sent after
`await connectToWhatsApp()`. -/
def postConnect (axiosPost : AxiosPost) (fresh : Nat) (r : SetupResult) (s : State) :
    HttpOutcome State :=
  if !s.isConnected then
    let o := connectToWhatsApp axiosPost fresh r s
    { state := o.state, effects := o.effects,
      response :=
        if o.completes then
          some { status := 200, body := .success (some "Iniciando conexão...") }
        else none,
      raised := o.raised }
  else
    { state := s, effects := [],
      response := some { status := 200, body := .success (some "Já conectado") }, raised := none }

/-- The route `POST /disconnect` (lines 170-179). `logout` is the answer of
`socket.logout()`; when it rejects, the handler stops there: nothing is assigned and
no response is sent. -/
def postDisconnect (logout : Except String Unit) (s : State) : HttpOutcome State :=
  match s.socket with
  | some _ =>
    match logout with
    | .ok _ =>
      { state := { socket := none, isConnected := false, connectionStatus := "disconnected",
                   qrCodeData := none },
        effects := [.logout],
        response := some { status := 200, body := .success (some "Desconectado") },
        raised := none }
    | .error e => { state := s, effects := [.logout], response := none, raised := some e }
  | none =>
    { state := s, effects := [],
      response := some { status := 200, body := .success (some "Desconectado") }, raised := none }

/-- The running service: the variables, the number of pending
`setTimeout(connectToWhatsApp, _)` timers and the number of transport clients created
so far (each has the listeners registered on it). -/
structure Sys where
  st : State
  pending : Nat
  sockets : Nat
  deriving DecidableEq, Repr

/-- The service once `app.listen` has called back (lines 183-189): one timer pending. -/
def Sys.initial : Sys := { st := State.initial, pending := 1, sockets := 0 }

/-- Something that happens to the running service. -/
inductive Action where
  | timerFires (r : SetupResult)
  | connect (r : SetupResult)
  | disconnect (logout : Except String Unit)
  | connectionUpdate (update : ConnectionUpdate)
  | messagesUpsert (m : MessagesUpsert) (now : String)
  | userChanged (user : Option Contact)

/-- One action on the running service, `none` when the action cannot happen: a timer
fires only when one is pending, a listener runs only once a client was created, and
the transport changes `socket.user` only of an existing client. -/
def step (loggedOut : Int) (axiosPost : AxiosPost) (y : Sys) : Action → Option Sys
  | .timerFires r =>
    if y.pending = 0 then none
    else
      let o := connectToWhatsApp axiosPost y.sockets r y.st
      some { st := o.state, pending := y.pending - 1 + (timeouts o.effects).length,
             sockets := y.sockets + r.created }
  | .connect r =>
    let o := postConnect axiosPost y.sockets r y.st
    some { st := o.state, pending := y.pending + (timeouts o.effects).length,
           sockets := y.sockets + (if y.st.isConnected then 0 else r.created) }
  | .disconnect logout =>
    let o := postDisconnect logout y.st
    some { y with st := o.state }
  | .connectionUpdate update =>
    if y.sockets = 0 then none
    else
      let o := onConnectionUpdate loggedOut axiosPost y.st update
      some { y with st := o.state, pending := y.pending + (timeouts o.effects).length }
  | .messagesUpsert m now =>
    if y.sockets = 0 then none
    else
      let o := onMessagesUpsert axiosPost now y.st m
      some { y with st := o.state }
  | .userChanged user =>
    match y.st.socket with
    | none => none
    | some sock => some { y with st := { y.st with socket := some { sock with user := user } } }

/-- A sequence of actions from a given service state. -/
def run (loggedOut : Int) (axiosPost : AxiosPost) : Sys → List Action → Option Sys
  | y, [] => some y
  | y, a :: as =>
    match step loggedOut axiosPost y a with
    | none => none
    | some y2 => run loggedOut axiosPost y2 as

/-- The service states that some sequence of actions leads to from the start. -/
def Reachable (loggedOut : Int) (y : Sys) : Prop :=
  ∃ (axiosPost : AxiosPost) (as : List Action), run loggedOut axiosPost Sys.initial as = some y

end Baileys

/-! ## `src/whatsapp_baileys_simple.js` -/

namespace Simple

/-- The module-level variables (lines 13-17). -/
structure State where
  socket : Option Socket
  qrCodeData : Option String
  isConnected : Bool
  connectionStatus : String
  userInfo : Option Contact
  deriving DecidableEq, Repr

/-- The values the variables are declared with. -/
def State.initial : State :=
  { socket := none, qrCodeData := none, isConnected := false, connectionStatus := "disconnected",
    userInfo := none }

/-- The function `notifyFlask` (lines 22-31): one POST, made with `timeout: 3000`, so
that a POST the backend never answers is rejected by axios after 3000 ms. Every
rejection is caught and ignored, so the call always completes. The result is the list
of calls made. -/
def notifyFlask (axiosPost : AxiosPost) (endpoint : String) (data : Payload) : List Effect :=
  match axiosPost ("http://localhost:5000" ++ endpoint) data with
  | some (.ok _) => [.post ("http://localhost:5000" ++ endpoint) data]
  | some (.error _) => [.post ("http://localhost:5000" ++ endpoint) data]
  | none => [.post ("http://localhost:5000" ++ endpoint) data]

/-- The function `connectToWhatsApp` (lines 34-129). `fresh` is the identity of the
client object `makeWASocket` returns. The listeners it registers are
`onConnectionUpdate` and `onMessagesUpsert` below. -/
def connectToWhatsApp (fresh : Nat) (r : SetupResult) (s : State) : Outcome State :=
  match r with
  | .ok user =>
    { state := { s with socket := some { ref := fresh, user := user } },
      effects := [.makeWASocket], raised := none }
  | .socketError _ =>
    { state := { s with connectionStatus := "error" },
      effects := [.makeWASocket, .setTimeout 5000], raised := none }
  | .authError _ =>
    { state := { s with connectionStatus := "error" },
      effects := [.setTimeout 5000], raised := none }

/-- The `if (qr)` block of the `connection.update` listener (lines 52-59). -/
def qrPart (axiosPost : AxiosPost) (s : State) (update : ConnectionUpdate) : Outcome State :=
  match update.qr with
  | some qr =>
    if qr ≠ "" then
      { state := { s with qrCodeData := some qr, connectionStatus := "qr_ready" },
        effects := notifyFlask axiosPost "/api/qr-updated" (.qrReady qr), raised := none }
    else { state := s, effects := [], raised := none }
  | none => { state := s, effects := [], raised := none }

/-- The `connection.update` listener (lines 49-88). `loggedOut` is the library
constant `DisconnectReason.loggedOut`. In the `open` branch the first three
assignments are made before `socket.user` is read, which raises when `socket` is
`null`. -/
def onConnectionUpdate (loggedOut : Int) (axiosPost : AxiosPost) (s : State)
    (update : ConnectionUpdate) : Outcome State :=
  let q := qrPart axiosPost s update
  if update.connection = some "close" then
    let shouldReconnect : Bool := decide (closeStatusCode update.lastDisconnect ≠ some loggedOut)
    { state := { q.state with isConnected := false, connectionStatus := "disconnected",
                              qrCodeData := none, userInfo := none },
      effects := q.effects
        ++ notifyFlask axiosPost "/api/disconnected" (.disconnected "connection_closed")
        ++ (if shouldReconnect then [.setTimeout 3000] else []),
      raised := none }
  else if update.connection = some "open" then
    let s2 : State :=
      { q.state with isConnected := true, connectionStatus := "connected", qrCodeData := none }
    match s2.socket with
    | none => { state := s2, effects := q.effects, raised := some typeError }
    | some sock =>
      { state := { s2 with userInfo := sock.user },
        effects := q.effects
          ++ notifyFlask axiosPost "/api/connected"
              (.connected (connectedPhone sock.user) sock.user),
        raised := none }
  else q

/-- The `messages.upsert` listener (lines 94-122). `now` is `new Date().toISOString()`.
`messageText` is `undefined` or `null` when `extendedTextMessage` has no text. -/
def onMessagesUpsert (axiosPost : AxiosPost) (now : String) (s : State) (m : MessagesUpsert) :
    Outcome State :=
  match m.messages with
  | [] => { state := s, effects := [], raised := some typeError }
  | message :: _ =>
    if message.key.fromMe ≠ some true then
      match message.message with
      | none => { state := s, effects := [], raised := none }
      | some content =>
        let phoneNumber : Option String := message.key.remoteJid
        let messageText : Option String :=
          if strTruthy content.conversation then content.conversation
          else
            match content.extendedTextMessage with
            | some ext => ext.text
            | none => some ""
        match messageText, phoneNumber with
        | some text, some jid =>
          if text ≠ "" ∧ jid ≠ "" then
            { state := s,
              effects := notifyFlask axiosPost "/api/message-received"
                (.messageReceived (jsReplaceFirst jid "@s.whatsapp.net" "") text
                  (strOr message.pushName "") message.key.id now),
              raised := none }
          else { state := s, effects := [], raised := none }
        | _, _ => { state := s, effects := [], raised := none }
    else { state := s, effects := [], raised := none }

/-- The route `GET /status` (lines 132-139). -/
def getStatus (s : State) : StatusReport :=
  { connected := s.isConnected,
    status := s.connectionStatus,
    qr_available := strTruthy s.qrCodeData,
    user := s.userInfo }

/-- The address computation shared, line for line, by `POST /send-message` (lines
166-171) and `POST /set-typing` (lines 191-195). A `phone` that is not a string has
no `includes` method, and the call raises. -/
def toJid (phone : JSVal) : Except String String :=
  match phone with
  | .str p =>
    if !jsIncludes p "@" then .ok (jsReplaceNonDigits p "" ++ "@s.whatsapp.net")
    else .ok p
  | _ => .error typeError

/-- The route `POST /send-message` (lines 158-181). `send` is the answer of
`socket.sendMessage`. -/
def postSendMessage (send : String → JSVal → Except String Unit) (s : State) (body : SendBody) :
    HttpOutcome State :=
  if !s.isConnected || s.socket.isNone then
    { state := s, effects := [],
      response := some { status := 400, body := .error "WhatsApp não conectado" }, raised := none }
  else
    match toJid body.phone with
    | .error e =>
      { state := s, effects := [],
        response := some { status := 500, body := .error e }, raised := none }
    | .ok jid =>
      match send jid body.message with
      | .ok _ =>
        { state := s, effects := [.sendMessage jid body.message],
          response := some { status := 200, body := .success (some "Mensagem enviada") },
          raised := none }
      | .error e =>
        { state := s, effects := [.sendMessage jid body.message],
          response := some { status := 500, body := .error e }, raised := none }

/-- The route `POST /set-typing` (lines 183-202). `typing` defaults to `true` when
the field is absent. `presence` is the answer of `socket.sendPresenceUpdate`. -/
def postSetTyping (presence : String → String → Except String Unit) (s : State)
    (body : TypingBody) : HttpOutcome State :=
  let typing : JSVal := if body.typing = .undefined then .bool true else body.typing
  if !s.isConnected || s.socket.isNone then
    { state := s, effects := [],
      response := some { status := 400, body := .error "WhatsApp não conectado" }, raised := none }
  else
    match toJid body.phone with
    | .error e =>
      { state := s, effects := [],
        response := some { status := 500, body := .error e }, raised := none }
    | .ok jid =>
      let kind : String := if typing.truthy then "composing" else "paused"
      match presence kind jid with
      | .ok _ =>
        { state := s, effects := [.sendPresenceUpdate kind jid],
          response := some { status := 200, body := .success none }, raised := none }
      | .error e =>
        { state := s, effects := [.sendPresenceUpdate kind jid],
          response := some { status := 500, body := .error e }, raised := none }

/-- The running service: the variables, the number of pending
`setTimeout(connectToWhatsApp, _)` timers and the number of transport clients created
so far (each has the listeners registered on it). -/
structure Sys where
  st : State
  pending : Nat
  sockets : Nat
  deriving DecidableEq, Repr

/-- The service once `app.listen` has called back (lines 206-211): one timer pending. -/
def Sys.initial : Sys := { st := State.initial, pending := 1, sockets := 0 }

/-- Something that happens to the running service. This variant has no connect or
disconnect route; `connectToWhatsApp` runs only from timers. -/
inductive Action where
  | timerFires (r : SetupResult)
  | connectionUpdate (update : ConnectionUpdate)
  | messagesUpsert (m : MessagesUpsert) (now : String)
  | userChanged (user : Option Contact)

/-- One action on the running service, `none` when the action cannot happen: a timer
fires only when one is pending, a listener runs only once a client was created, and
the transport changes `socket.user` only of an existing client. -/
def step (loggedOut : Int) (axiosPost : AxiosPost) (y : Sys) : Action → Option Sys
  | .timerFires r =>
    if y.pending = 0 then none
    else
      let o := connectToWhatsApp y.sockets r y.st
      some { st := o.state, pending := y.pending - 1 + (timeouts o.effects).length,
             sockets := y.sockets + r.created }
  | .connectionUpdate update =>
    if y.sockets = 0 then none
    else
      let o := onConnectionUpdate loggedOut axiosPost y.st update
      some { y with st := o.state, pending := y.pending + (timeouts o.effects).length }
  | .messagesUpsert m now =>
    if y.sockets = 0 then none
    else
      let o := onMessagesUpsert axiosPost now y.st m
      some { y with st := o.state }
  | .userChanged user =>
    match y.st.socket with
    | none => none
    | some sock => some { y with st := { y.st with socket := some { sock with user := user } } }

/-- A sequence of actions from a given service state. -/
def run (loggedOut : Int) (axiosPost : AxiosPost) : Sys → List Action → Option Sys
  | y, [] => some y
  | y, a :: as =>
    match step loggedOut axiosPost y a with
    | none => none
    | some y2 => run loggedOut axiosPost y2 as

/-- The service states that some sequence of actions leads to from the start. -/
def Reachable (loggedOut : Int) (y : Sys) : Prop :=
  ∃ (axiosPost : AxiosPost) (as : List Action), run loggedOut axiosPost Sys.initial as = some y

end Simple

/-! ## Specification-side definitions -/

/-- The address the specification asks for: the phone itself when it contains `'@'`,
otherwise its digits followed by `"@s.whatsapp.net"`. -/
def specAddress (p : String) : String :=
  if '@' ∈ p.data then p else String.mk (p.data.filter Char.isDigit) ++ "@s.whatsapp.net"

/-- In `whatsapp_baileys.js`: a session that is pairing-pending holds an artifact. -/
def Baileys.PairingInv (s : Baileys.State) : Prop :=
  s.connectionStatus = "qr_ready" → strTruthy s.qrCodeData = true

/-- In `whatsapp_baileys_simple.js`: a session that is pairing-pending holds an
artifact, and an artifact is held only while pairing-pending or after a setup error. -/
def Simple.PairingInv (s : Simple.State) : Prop :=
  (s.connectionStatus = "qr_ready" → strTruthy s.qrCodeData = true)
    ∧ (s.qrCodeData ≠ none → s.connectionStatus = "qr_ready" ∨ s.connectionStatus = "error")

/-- In `whatsapp_baileys_simple.js`: an identity is held only by a connected session. -/
def Simple.IdentityInv (s : Simple.State) : Prop :=
  s.userInfo ≠ none → s.isConnected = true

/-- The text of an inbound message as the specification names it: its `conversation`
field when that is a non-empty string, or else the text of its `extendedTextMessage`;
empty when neither is there. -/
def specText (c : MessageContent) : String :=
  match c.conversation with
  | some t =>
    if t = "" then
      match c.extendedTextMessage with
      | some e => e.text.getD ""
      | none => ""
    else t
  | none =>
    match c.extendedTextMessage with
    | some e => e.text.getD ""
    | none => ""

/-- The reconnect timers the specification asks of a close event: none when the close
reason carries the status code `loggedOut`, one of 3000 ms for every other reason, an
absent or incomplete `lastDisconnect` included. -/
def specReconnectTimers (loggedOut : Int) : Option LastDisconnect → List Nat
  | some { error := some { output := some { statusCode := some c } } } =>
    if c = loggedOut then [] else [3000]
  | _ => [3000]

/-! ## Facts about the string primitives -/

theorem startsWithChars_single (a : Char) (cs : List Char) :
    startsWithChars [a] cs = true ↔ cs.head? = some a := by
  cases cs with
  | nil => simp [startsWithChars]
  | cons c cs => simp [startsWithChars, eq_comm]

theorem includesChars_single (a : Char) (cs : List Char) :
    includesChars [a] cs = true ↔ a ∈ cs := by
  induction cs with
  | nil => simp [includesChars]
  | cons c cs ih =>
    simp only [includesChars, Bool.or_eq_true, ih, startsWithChars_single, List.mem_cons]
    simp [eq_comm]

theorem replaceNonDigitChars_nil (cs : List Char) :
    replaceNonDigitChars [] cs = cs.filter Char.isDigit := by
  induction cs with
  | nil => rfl
  | cons c cs ih =>
    by_cases h : c.isDigit = true <;> simp [replaceNonDigitChars, List.filter_cons, h, ih]

theorem jsIncludes_at (p : String) : jsIncludes p "@" = true ↔ '@' ∈ p.data := by
  show includesChars ['@'] p.data = true ↔ _
  exact includesChars_single '@' p.data

theorem toJid_str (p : String) : Simple.toJid (.str p) = .ok (specAddress p) := by
  unfold Simple.toJid specAddress
  by_cases h : '@' ∈ p.data
  · have h2 : jsIncludes p "@" = true := (jsIncludes_at p).2 h
    simp [h, h2]
  · have h2 : jsIncludes p "@" = false := by
      cases hb : jsIncludes p "@" with
      | false => rfl
      | true => exact absurd ((jsIncludes_at p).1 hb) h
    simp [h, h2, jsReplaceNonDigits, replaceNonDigitChars_nil]

/-! ## Outbound commands -/

/-- C1. In `whatsapp_baileys_simple.js`, when the session is connected, the only call
`POST /send-message` and `POST /set-typing` make for a phone string `p` is the
transport call, and the address it is given is `p` itself when `p` contains `'@'`,
otherwise the digits of `p` followed by `"@s.whatsapp.net"`, whether the transport
then resolves or rejects. `"5511999999999"` gives `"5511999999999@s.whatsapp.net"`
and an address already carrying the domain is passed through unchanged. -/
theorem simple_address_normalised (send : String → JSVal → Except String Unit)
    (presence : String → String → Except String Unit) (s : Simple.State) (p : String)
    (message typing : JSVal) (hc : s.isConnected = true) (hs : s.socket ≠ none) :
    (Simple.postSendMessage send s { phone := .str p, message := message }).effects
        = [Effect.sendMessage (specAddress p) message]
      ∧ (∃ kind, (Simple.postSetTyping presence s { phone := .str p, typing := typing }).effects
          = [Effect.sendPresenceUpdate kind (specAddress p)])
      ∧ specAddress p = (if '@' ∈ p.data then p
          else String.mk (p.data.filter Char.isDigit) ++ "@s.whatsapp.net")
      ∧ Simple.toJid (.str "5511999999999") = .ok "5511999999999@s.whatsapp.net"
      ∧ Simple.toJid (.str "5511999999999@s.whatsapp.net") = .ok "5511999999999@s.whatsapp.net"
      ∧ Simple.toJid (.str "+55 (11) 99999-9999") = .ok "5511999999999@s.whatsapp.net" := by
  have hsock : s.socket.isNone = false := by
    cases h : s.socket with
    | none => exact absurd h hs
    | some _ => rfl
  refine ⟨?_, ?_, rfl, (toJid_str _).trans (congrArg Except.ok (by decide)),
    (toJid_str _).trans (congrArg Except.ok (by decide)),
    (toJid_str _).trans (congrArg Except.ok (by decide))⟩
  · unfold Simple.postSendMessage
    simp only [hc, hsock, toJid_str]
    cases send (specAddress p) message <;> simp
  · unfold Simple.postSetTyping
    simp only [hc, hsock, toJid_str]
    generalize (if (if typing = JSVal.undefined then JSVal.bool true else typing).truthy = true
      then "composing" else "paused") = kind
    refine ⟨kind, ?_⟩
    cases presence kind (specAddress p) <;> simp

/-- The statement of C1 at a connected session and the phone `"+55 11 9"`. -/
theorem simple_address_normalised_witness :
    (Simple.postSendMessage (fun _ _ => .ok ())
        { socket := some { ref := 0, user := none }, qrCodeData := none, isConnected := true,
          connectionStatus := "connected", userInfo := none }
        { phone := .str "+55 11 9", message := .str "oi" }).effects
      = [Effect.sendMessage "55119@s.whatsapp.net" (.str "oi")] :=
  (simple_address_normalised (fun _ _ => .ok ()) (fun _ _ => .ok ())
    { socket := some { ref := 0, user := none }, qrCodeData := none, isConnected := true,
      connectionStatus := "connected", userInfo := none }
    "+55 11 9" (.str "oi") .undefined rfl (by decide)).1

/-- C2. While the session is not connected (`isConnected` is false), whatever the
request body, `POST /send-message` of both services and `POST /set-typing` answer
with status 400 and the not-connected error, make no external call at all (so no
`sendMessage` and no `sendPresenceUpdate`), raise nothing and leave every variable
as it was. -/
theorem not_connected_rejected (send : String → JSVal → Except String Unit)
    (presence : String → String → Except String Unit)
    (sb : Baileys.State) (ss : Simple.State) (body : SendBody) (tbody : TypingBody)
    (hb : sb.isConnected = false) (hs : ss.isConnected = false) :
    ((Baileys.postSendMessage send sb body).state = sb
      ∧ (Baileys.postSendMessage send sb body).effects = []
      ∧ (Baileys.postSendMessage send sb body).response
          = some { status := 400, body := .error "WhatsApp não conectado" }
      ∧ (Baileys.postSendMessage send sb body).raised = none)
    ∧ ((Simple.postSendMessage send ss body).state = ss
      ∧ (Simple.postSendMessage send ss body).effects = []
      ∧ (Simple.postSendMessage send ss body).response
          = some { status := 400, body := .error "WhatsApp não conectado" }
      ∧ (Simple.postSendMessage send ss body).raised = none)
    ∧ ((Simple.postSetTyping presence ss tbody).state = ss
      ∧ (Simple.postSetTyping presence ss tbody).effects = []
      ∧ (Simple.postSetTyping presence ss tbody).response
          = some { status := 400, body := .error "WhatsApp não conectado" }
      ∧ (Simple.postSetTyping presence ss tbody).raised = none) := by
  simp [Baileys.postSendMessage, Simple.postSendMessage, Simple.postSetTyping, hb, hs]

/-- The statement of C2 at the freshly started services and a well-formed body. -/
theorem not_connected_rejected_witness :
    (Baileys.postSendMessage (fun _ _ => .ok ()) Baileys.State.initial
        { phone := .str "5511999999999", message := .str "oi" }).effects = []
      ∧ (Simple.postSetTyping (fun _ _ => .ok ()) Simple.State.initial
        { phone := .str "5511999999999", typing := .bool true }).response
          = some { status := 400, body := .error "WhatsApp não conectado" } :=
  have h := not_connected_rejected (fun _ _ => .ok ()) (fun _ _ => .ok ())
    Baileys.State.initial Simple.State.initial
    { phone := .str "5511999999999", message := .str "oi" }
    { phone := .str "5511999999999", typing := .bool true } rfl rfl
  ⟨h.1.2.1, h.2.2.2.2.1⟩

/-! ## The pairing artifact -/

theorem baileys_onMessagesUpsert_state (axiosPost : AxiosPost) (now : String)
    (s : Baileys.State) (m : MessagesUpsert) :
    (Baileys.onMessagesUpsert axiosPost now s m).state = s := by
  unfold Baileys.onMessagesUpsert
  cases m.messages with
  | nil => rfl
  | cons message rest =>
    dsimp only
    by_cases hf : message.key.fromMe = some true
    · simp [hf]
    · simp only [ne_eq, hf, not_false_eq_true, if_true]
      cases message.message with
      | none => rfl
      | some content =>
        dsimp only
        split
        · cases message.key.remoteJid <;> rfl
        · rfl

theorem simple_onMessagesUpsert_state (axiosPost : AxiosPost) (now : String)
    (s : Simple.State) (m : MessagesUpsert) :
    (Simple.onMessagesUpsert axiosPost now s m).state = s := by
  unfold Simple.onMessagesUpsert
  cases m.messages with
  | nil => rfl
  | cons message rest =>
    dsimp only
    by_cases hf : message.key.fromMe = some true
    · simp [hf]
    · simp only [ne_eq, hf, not_false_eq_true, if_true]
      cases message.message with
      | none => rfl
      | some content =>
        dsimp only
        split
        · split <;> rfl
        · rfl

theorem baileys_qrPart_pairingInv (axiosPost : AxiosPost) (s : Baileys.State)
    (u : ConnectionUpdate) (h : Baileys.PairingInv s) :
    Baileys.PairingInv (Baileys.qrPart axiosPost s u).state := by
  unfold Baileys.qrPart
  split
  · split
    · intro _
      simpa [strTruthy] using ‹_›
    · exact h
  · exact h

theorem baileys_step_pairingInv (loggedOut : Int) (axiosPost : AxiosPost) (y y2 : Baileys.Sys)
    (a : Baileys.Action) (h : Baileys.PairingInv y.st)
    (hstep : Baileys.step loggedOut axiosPost y a = some y2) : Baileys.PairingInv y2.st := by
  cases a with
  | timerFires r =>
    simp only [Baileys.step] at hstep
    split at hstep
    · exact absurd hstep (by simp)
    · cases hstep
      cases r <;> simp_all [Baileys.connectToWhatsApp, Baileys.PairingInv]
  | connect r =>
    simp only [Baileys.step, Option.some.injEq] at hstep
    subst hstep
    unfold Baileys.postConnect
    by_cases hc : y.st.isConnected = true
    · simpa [hc] using h
    · cases r <;> simp_all [Baileys.connectToWhatsApp, Baileys.PairingInv]
  | disconnect logout =>
    simp only [Baileys.step, Option.some.injEq] at hstep
    subst hstep
    unfold Baileys.postDisconnect
    cases hsock : y.st.socket with
    | none => simpa using h
    | some sock =>
      cases logout with
      | ok _ => simp [Baileys.PairingInv]
      | error e => simpa using h
  | connectionUpdate u =>
    simp only [Baileys.step] at hstep
    split at hstep
    · exact absurd hstep (by simp)
    · cases hstep
      have hq := baileys_qrPart_pairingInv axiosPost y.st u h
      simp only [Baileys.onConnectionUpdate]
      split
      · exact hq
      · split
        · simp [Baileys.PairingInv]
        · split
          · split <;> simp [Baileys.PairingInv]
          · exact hq
  | messagesUpsert m now =>
    simp only [Baileys.step] at hstep
    split at hstep
    · exact absurd hstep (by simp)
    · cases hstep
      simpa [baileys_onMessagesUpsert_state] using h
  | userChanged user =>
    simp only [Baileys.step] at hstep
    split at hstep
    · exact absurd hstep (by simp)
    · cases hstep
      exact h

theorem baileys_run_pairingInv (loggedOut : Int) (axiosPost : AxiosPost)
    (as : List Baileys.Action) (y y2 : Baileys.Sys) (h : Baileys.PairingInv y.st)
    (hrun : Baileys.run loggedOut axiosPost y as = some y2) : Baileys.PairingInv y2.st := by
  induction as generalizing y with
  | nil =>
    simp only [Baileys.run, Option.some.injEq] at hrun
    exact hrun ▸ h
  | cons a as ih =>
    simp only [Baileys.run] at hrun
    cases hs : Baileys.step loggedOut axiosPost y a with
    | none => simp [hs] at hrun
    | some y1 =>
      simp only [hs] at hrun
      exact ih y1 (baileys_step_pairingInv loggedOut axiosPost y y1 a h hs) hrun

theorem simple_qrPart_pairingInv (axiosPost : AxiosPost) (s : Simple.State)
    (u : ConnectionUpdate) (h : Simple.PairingInv s) :
    Simple.PairingInv (Simple.qrPart axiosPost s u).state := by
  unfold Simple.qrPart
  split
  · split
    · refine ⟨fun _ => ?_, fun _ => Or.inl rfl⟩
      simpa [strTruthy] using ‹_›
    · exact h
  · exact h

theorem simple_step_pairingInv (loggedOut : Int) (axiosPost : AxiosPost) (y y2 : Simple.Sys)
    (a : Simple.Action) (h : Simple.PairingInv y.st)
    (hstep : Simple.step loggedOut axiosPost y a = some y2) : Simple.PairingInv y2.st := by
  cases a with
  | timerFires r =>
    simp only [Simple.step] at hstep
    split at hstep
    · exact absurd hstep (by simp)
    · cases hstep
      cases r <;> simp_all [Simple.connectToWhatsApp, Simple.PairingInv]
  | connectionUpdate u =>
    simp only [Simple.step] at hstep
    split at hstep
    · exact absurd hstep (by simp)
    · cases hstep
      have hq := simple_qrPart_pairingInv axiosPost y.st u h
      simp only [Simple.onConnectionUpdate]
      split
      · simp [Simple.PairingInv]
      · split
        · split <;> simp [Simple.PairingInv]
        · exact hq
  | messagesUpsert m now =>
    simp only [Simple.step] at hstep
    split at hstep
    · exact absurd hstep (by simp)
    · cases hstep
      simpa [simple_onMessagesUpsert_state] using h
  | userChanged user =>
    simp only [Simple.step] at hstep
    split at hstep
    · exact absurd hstep (by simp)
    · cases hstep
      exact h

theorem simple_run_pairingInv (loggedOut : Int) (axiosPost : AxiosPost)
    (as : List Simple.Action) (y y2 : Simple.Sys) (h : Simple.PairingInv y.st)
    (hrun : Simple.run loggedOut axiosPost y as = some y2) : Simple.PairingInv y2.st := by
  induction as generalizing y with
  | nil =>
    simp only [Simple.run, Option.some.injEq] at hrun
    exact hrun ▸ h
  | cons a as ih =>
    simp only [Simple.run] at hrun
    cases hs : Simple.step loggedOut axiosPost y a with
    | none => simp [hs] at hrun
    | some y1 =>
      simp only [hs] at hrun
      exact ih y1 (simple_step_pairingInv loggedOut axiosPost y y1 a h hs) hrun

theorem strTruthy_ne_none (x : Option String) (h : strTruthy x = true) : x ≠ none := by
  cases x with
  | none => simp [strTruthy] at h
  | some _ => simp

/-- C3, as stated, fails. In `whatsapp_baileys.js` a client is created, the transport
delivers a pairing payload and then a close event (status code 408): `/status`
reports `status: 'disconnected'` together with `qr_available: true`. In
`whatsapp_baileys_simple.js` a close event schedules a reconnect, a pairing payload
arrives, and the reconnect fails to load the credentials: `/status` reports
`status: 'error'` together with `qr_available: true`. -/
theorem pairing_artifact_iff_fails :
    (Baileys.run 401 (fun _ _ => some (.ok ())) Baileys.Sys.initial
        [ .timerFires (.ok none),
          .connectionUpdate { connection := none, lastDisconnect := none, qr := some "2@pair" },
          .connectionUpdate
            { connection := some "close",
              lastDisconnect := some { error := some { output := some { statusCode := some 408 } } },
              qr := none } ]).map (fun y => Baileys.getStatus y.st)
      = some { connected := false, status := "disconnected", qr_available := true, user := none }
    ∧ (Simple.run 401 (fun _ _ => some (.ok ())) Simple.Sys.initial
        [ .timerFires (.ok none),
          .connectionUpdate
            { connection := some "close",
              lastDisconnect := some { error := some { output := some { statusCode := some 408 } } },
              qr := none },
          .connectionUpdate { connection := none, lastDisconnect := none, qr := some "2@pair" },
          .timerFires (.authError "EACCES") ]).map (fun y => Simple.getStatus y.st)
      = some { connected := false, status := "error", qr_available := true, user := none } := by
  decide

/-- C3, amended. In every reachable state of both services, a pairing-pending
session (`connectionStatus == 'qr_ready'`) holds a pairing artifact (`qrCodeData` is
non-null and `/status` reports `qr_available: true`). Conversely, in
`whatsapp_baileys_simple.js` an artifact is held only while the status is `'qr_ready'`
or `'error'`. -/
theorem pairing_pending_has_artifact (loggedOut : Int) (yb : Baileys.Sys) (ys : Simple.Sys)
    (hb : Baileys.Reachable loggedOut yb) (hs : Simple.Reachable loggedOut ys) :
    (yb.st.connectionStatus = "qr_ready" →
        yb.st.qrCodeData ≠ none ∧ (Baileys.getStatus yb.st).qr_available = true)
      ∧ (ys.st.connectionStatus = "qr_ready" →
        ys.st.qrCodeData ≠ none ∧ (Simple.getStatus ys.st).qr_available = true)
      ∧ (ys.st.qrCodeData ≠ none →
        ys.st.connectionStatus = "qr_ready" ∨ ys.st.connectionStatus = "error") := by
  obtain ⟨pb, asb, hrb⟩ := hb
  obtain ⟨ps, ass, hrs⟩ := hs
  have ib : Baileys.PairingInv yb.st :=
    baileys_run_pairingInv loggedOut pb asb Baileys.Sys.initial yb
      (fun h => absurd h (by decide)) hrb
  have is : Simple.PairingInv ys.st :=
    simple_run_pairingInv loggedOut ps ass Simple.Sys.initial ys
      ⟨fun h => absurd h (by decide), fun h => absurd rfl h⟩ hrs
  exact ⟨fun h => ⟨strTruthy_ne_none _ (ib h), ib h⟩,
    fun h => ⟨strTruthy_ne_none _ (is.1 h), is.1 h⟩, is.2⟩

/-- The statement of C3, amended, at the states both services reach when the first
client is created and delivers the pairing payload `"2@pair"`. -/
theorem pairing_pending_has_artifact_witness :
    (Baileys.getStatus
        { socket := some { ref := 0, user := none }, qrCodeData := some "2@pair",
          isConnected := false, connectionStatus := "qr_ready" }).qr_available = true
      ∧ (Simple.getStatus
        { socket := some { ref := 0, user := none }, qrCodeData := some "2@pair",
          isConnected := false, connectionStatus := "qr_ready", userInfo := none }).qr_available
          = true :=
  have h := pairing_pending_has_artifact 401
    { st := { socket := some { ref := 0, user := none }, qrCodeData := some "2@pair",
              isConnected := false, connectionStatus := "qr_ready" },
      pending := 0, sockets := 1 }
    { st := { socket := some { ref := 0, user := none }, qrCodeData := some "2@pair",
              isConnected := false, connectionStatus := "qr_ready", userInfo := none },
      pending := 0, sockets := 1 }
    ⟨fun _ _ => some (.ok ()),
      [ .timerFires (.ok none),
        .connectionUpdate { connection := none, lastDisconnect := none, qr := some "2@pair" } ],
      by decide⟩
    ⟨fun _ _ => some (.ok ()),
      [ .timerFires (.ok none),
        .connectionUpdate { connection := none, lastDisconnect := none, qr := some "2@pair" } ],
      by decide⟩
  ⟨(h.1 rfl).2, (h.2.1 rfl).2⟩

/-! ## Facts about the call lists -/

theorem timeouts_append (xs ys : List Effect) :
    timeouts (xs ++ ys) = timeouts xs ++ timeouts ys := by
  induction xs with
  | nil => rfl
  | cons e es ih => cases e <;> simp [timeouts, ih]

theorem posts_append (xs ys : List Effect) : posts (xs ++ ys) = posts xs ++ posts ys := by
  induction xs with
  | nil => rfl
  | cons e es ih => cases e <;> simp [posts, ih]

theorem baileys_notifyFlask_eq (axiosPost : AxiosPost) (endpoint : String) (data : Payload) :
    (Baileys.notifyFlask axiosPost endpoint data).effects
      = [Effect.post ("http://localhost:5000" ++ endpoint) data] := by
  unfold Baileys.notifyFlask Baileys.FLASK_SERVER
  cases axiosPost ("http://localhost:5000" ++ endpoint) data with
  | none => rfl
  | some r => cases r <;> rfl

theorem baileys_notifyFlask_settled (answer : String → Payload → Except String Unit)
    (endpoint : String) (data : Payload) :
    (Baileys.notifyFlask (settled answer) endpoint data).settles = true := by
  unfold Baileys.notifyFlask settled
  cases answer (Baileys.FLASK_SERVER ++ endpoint) data <;> rfl

theorem simple_notifyFlask_eq (axiosPost : AxiosPost) (endpoint : String) (data : Payload) :
    Simple.notifyFlask axiosPost endpoint data
      = [Effect.post ("http://localhost:5000" ++ endpoint) data] := by
  unfold Simple.notifyFlask
  cases axiosPost ("http://localhost:5000" ++ endpoint) data with
  | none => rfl
  | some r => cases r <;> rfl

theorem baileys_qrPart_timeouts (axiosPost : AxiosPost) (s : Baileys.State)
    (u : ConnectionUpdate) : timeouts (Baileys.qrPart axiosPost s u).effects = [] := by
  unfold Baileys.qrPart
  split
  · split
    · simp [baileys_notifyFlask_eq, timeouts]
    · rfl
  · rfl

theorem simple_qrPart_timeouts (axiosPost : AxiosPost) (s : Simple.State)
    (u : ConnectionUpdate) : timeouts (Simple.qrPart axiosPost s u).effects = [] := by
  unfold Simple.qrPart
  split
  · split
    · simp [simple_notifyFlask_eq, timeouts]
    · rfl
  · rfl

/-! ## Transport close events -/

theorem baileys_qrPart_completes (answer : String → Payload → Except String Unit)
    (s : Baileys.State) (u : ConnectionUpdate) :
    (Baileys.qrPart (settled answer) s u).completes = true := by
  unfold Baileys.qrPart
  split
  · split
    · exact baileys_notifyFlask_settled answer _ _
    · rfl
  · rfl

theorem closeStatusCode_spec (loggedOut : Int) (ld : Option LastDisconnect) :
    (if closeStatusCode ld = some loggedOut then ([] : List Nat) else [3000])
      = specReconnectTimers loggedOut ld := by
  cases ld with
  | none => simp [closeStatusCode, specReconnectTimers]
  | some l =>
    obtain ⟨e⟩ := l
    cases e with
    | none => simp [closeStatusCode, specReconnectTimers]
    | some e =>
      obtain ⟨o⟩ := e
      cases o with
      | none => simp [closeStatusCode, specReconnectTimers]
      | some o =>
        obtain ⟨c⟩ := o
        cases c with
        | none => simp [closeStatusCode, specReconnectTimers]
        | some c => simp [closeStatusCode, specReconnectTimers]

/-- A `connection.update` event with `connection == 'close'`, processed in any state:
by `whatsapp_baileys_simple.js` whatever the backend does, and by `whatsapp_baileys.js`
when the backend answers its POSTs (with success or failure). The session is left
disconnected (`isConnected` false, `connectionStatus` `'disconnected'`), nothing is
raised and the listener completes. No timer is set when `lastDisconnect.error.output`
carries the status code `DisconnectReason.loggedOut`; for every other close reason,
an absent `lastDisconnect` and one without `error`, `output` or `statusCode` included,
exactly one `setTimeout(connectToWhatsApp, 3000)` is made. -/
theorem close_disconnects_and_reconnects (loggedOut : Int)
    (answer : String → Payload → Except String Unit) (axiosPost : AxiosPost)
    (sb : Baileys.State) (ss : Simple.State) (u : ConnectionUpdate)
    (h : u.connection = some "close") :
    ((Baileys.onConnectionUpdate loggedOut (settled answer) sb u).state.isConnected = false
      ∧ (Baileys.onConnectionUpdate loggedOut (settled answer) sb u).state.connectionStatus
          = "disconnected"
      ∧ (Baileys.onConnectionUpdate loggedOut (settled answer) sb u).raised = none
      ∧ (Baileys.onConnectionUpdate loggedOut (settled answer) sb u).completes = true
      ∧ timeouts (Baileys.onConnectionUpdate loggedOut (settled answer) sb u).effects
          = (match u.lastDisconnect with
            | some { error := some { output := some { statusCode := some c } } } =>
              if c = loggedOut then [] else [3000]
            | _ => [3000]))
    ∧ ((Simple.onConnectionUpdate loggedOut axiosPost ss u).state.isConnected = false
      ∧ (Simple.onConnectionUpdate loggedOut axiosPost ss u).state.connectionStatus
          = "disconnected"
      ∧ (Simple.onConnectionUpdate loggedOut axiosPost ss u).raised = none
      ∧ (Simple.onConnectionUpdate loggedOut axiosPost ss u).completes = true
      ∧ timeouts (Simple.onConnectionUpdate loggedOut axiosPost ss u).effects
          = (match u.lastDisconnect with
            | some { error := some { output := some { statusCode := some c } } } =>
              if c = loggedOut then [] else [3000]
            | _ => [3000])) := by
  have hspec := closeStatusCode_spec loggedOut u.lastDisconnect
  unfold specReconnectTimers at hspec
  refine ⟨⟨?_, ?_, ?_, ?_, ?_⟩, ⟨?_, ?_, ?_, ?_, ?_⟩⟩
  all_goals simp only [Baileys.onConnectionUpdate, Simple.onConnectionUpdate, h, if_true,
    baileys_qrPart_completes, baileys_notifyFlask_settled, Bool.true_eq_false, if_false,
    Bool.true_and]
  · rw [← hspec]
    simp only [timeouts_append, baileys_qrPart_timeouts, baileys_notifyFlask_eq]
    by_cases hc : closeStatusCode u.lastDisconnect = some loggedOut <;> simp [hc, timeouts]
  · rw [← hspec]
    simp only [timeouts_append, simple_qrPart_timeouts, simple_notifyFlask_eq]
    by_cases hc : closeStatusCode u.lastDisconnect = some loggedOut <;> simp [hc, timeouts]

/-- The statement above at a connected session of `whatsapp_baileys.js` whose backend
refuses the connection, closed without `lastDisconnect`, and at one of
`whatsapp_baileys_simple.js` whose backend never answers, closed with the logged-out
status code. -/
theorem close_disconnects_and_reconnects_witness :
    timeouts (Baileys.onConnectionUpdate 401 (settled (fun _ _ => .error "ECONNREFUSED"))
        { socket := some { ref := 0, user := none }, qrCodeData := none, isConnected := true,
          connectionStatus := "connected" }
        { connection := some "close", lastDisconnect := none, qr := none }).effects = [3000]
      ∧ timeouts (Simple.onConnectionUpdate 401 (fun _ _ => none)
        { socket := some { ref := 0, user := none }, qrCodeData := none, isConnected := true,
          connectionStatus := "connected", userInfo := none }
        { connection := some "close",
          lastDisconnect := some { error := some { output := some { statusCode := some 401 } } },
          qr := none }).effects = [] :=
  ⟨(close_disconnects_and_reconnects 401 (fun _ _ => .error "ECONNREFUSED") (fun _ _ => none)
      { socket := some { ref := 0, user := none }, qrCodeData := none, isConnected := true,
        connectionStatus := "connected" }
      { socket := some { ref := 0, user := none }, qrCodeData := none, isConnected := true,
        connectionStatus := "connected", userInfo := none }
      { connection := some "close", lastDisconnect := none, qr := none } rfl).1.2.2.2.2,
   (close_disconnects_and_reconnects 401 (fun _ _ => .error "ECONNREFUSED") (fun _ _ => none)
      { socket := some { ref := 0, user := none }, qrCodeData := none, isConnected := true,
        connectionStatus := "connected" }
      { socket := some { ref := 0, user := none }, qrCodeData := none, isConnected := true,
        connectionStatus := "connected", userInfo := none }
      { connection := some "close",
        lastDisconnect := some { error := some { output := some { statusCode := some 401 } } },
        qr := none } rfl).2.2.2.2.2⟩

/-- C4 at the failing input. A connected session of `whatsapp_baileys.js` whose backend
accepts the POST and never answers receives a close event with status code 408: the
listener marks the session disconnected, posts the notification and waits on it for
ever, so no `setTimeout(connectToWhatsApp, 3000)` is made. When the same event also
carries a pairing payload, the listener already waits on the first POST and the close
branch is not reached: the session stays connected. `whatsapp_baileys_simple.js`,
whose POST has a timeout, sets the timer at the same input; so does
`whatsapp_baileys.js` when the backend answers, for the status code 408 and for a
close reason without `error` or without `output`, and it sets none for the logged-out
status code 401. -/
theorem close_with_silent_backend_sets_no_timer :
    (Baileys.onConnectionUpdate 401 (fun _ _ => none)
        { socket := some { ref := 0, user := none }, qrCodeData := none, isConnected := true,
          connectionStatus := "connected" }
        { connection := some "close",
          lastDisconnect := some { error := some { output := some { statusCode := some 408 } } },
          qr := none }).effects
      = [Effect.post "http://localhost:5000/webhook/disconnected"
          (Payload.disconnected "connection_closed")]
    ∧ (Baileys.onConnectionUpdate 401 (fun _ _ => none)
        { socket := some { ref := 0, user := none }, qrCodeData := none, isConnected := true,
          connectionStatus := "connected" }
        { connection := some "close",
          lastDisconnect := some { error := some { output := some { statusCode := some 408 } } },
          qr := none }).completes = false
    ∧ (Baileys.onConnectionUpdate 401 (fun _ _ => none)
        { socket := some { ref := 0, user := none }, qrCodeData := none, isConnected := true,
          connectionStatus := "connected" }
        { connection := some "close",
          lastDisconnect := some { error := some { output := some { statusCode := some 408 } } },
          qr := none }).state
      = { socket := some { ref := 0, user := none }, qrCodeData := none, isConnected := false,
          connectionStatus := "disconnected" }
    ∧ (Baileys.onConnectionUpdate 401 (fun _ _ => none)
        { socket := some { ref := 0, user := none }, qrCodeData := none, isConnected := true,
          connectionStatus := "connected" }
        { connection := some "close",
          lastDisconnect := some { error := some { output := some { statusCode := some 408 } } },
          qr := some "2@pair" }).state
      = { socket := some { ref := 0, user := none }, qrCodeData := some "2@pair",
          isConnected := true, connectionStatus := "qr_ready" }
    ∧ timeouts (Simple.onConnectionUpdate 401 (fun _ _ => none)
        { socket := some { ref := 0, user := none }, qrCodeData := none, isConnected := true,
          connectionStatus := "connected", userInfo := none }
        { connection := some "close",
          lastDisconnect := some { error := some { output := some { statusCode := some 408 } } },
          qr := none }).effects = [3000]
    ∧ timeouts (Baileys.onConnectionUpdate 401 (fun _ _ => some (.ok ()))
        { socket := some { ref := 0, user := none }, qrCodeData := none, isConnected := true,
          connectionStatus := "connected" }
        { connection := some "close",
          lastDisconnect := some { error := some { output := some { statusCode := some 408 } } },
          qr := none }).effects = [3000]
    ∧ timeouts (Baileys.onConnectionUpdate 401 (fun _ _ => some (.ok ()))
        { socket := some { ref := 0, user := none }, qrCodeData := none, isConnected := true,
          connectionStatus := "connected" }
        { connection := some "close", lastDisconnect := some { error := none },
          qr := none }).effects = [3000]
    ∧ timeouts (Baileys.onConnectionUpdate 401 (fun _ _ => some (.ok ()))
        { socket := some { ref := 0, user := none }, qrCodeData := none, isConnected := true,
          connectionStatus := "connected" }
        { connection := some "close",
          lastDisconnect := some { error := some { output := none } },
          qr := none }).effects = [3000]
    ∧ timeouts (Baileys.onConnectionUpdate 401 (fun _ _ => some (.ok ()))
        { socket := some { ref := 0, user := none }, qrCodeData := none, isConnected := true,
          connectionStatus := "connected" }
        { connection := some "close",
          lastDisconnect := some { error := some { output := some { statusCode := some 401 } } },
          qr := none }).effects = [] := by
  decide

/-! ## The reported identity -/

theorem simple_qrPart_identity (axiosPost : AxiosPost) (s : Simple.State)
    (u : ConnectionUpdate) :
    (Simple.qrPart axiosPost s u).state.userInfo = s.userInfo
      ∧ (Simple.qrPart axiosPost s u).state.isConnected = s.isConnected
      ∧ (Simple.qrPart axiosPost s u).state.socket = s.socket := by
  unfold Simple.qrPart
  split
  · split <;> simp
  · simp

theorem simple_step_identityInv (loggedOut : Int) (axiosPost : AxiosPost) (y y2 : Simple.Sys)
    (a : Simple.Action) (h : Simple.IdentityInv y.st)
    (hstep : Simple.step loggedOut axiosPost y a = some y2) : Simple.IdentityInv y2.st := by
  cases a with
  | timerFires r =>
    simp only [Simple.step] at hstep
    split at hstep
    · exact absurd hstep (by simp)
    · cases hstep
      cases r <;> simpa [Simple.connectToWhatsApp, Simple.IdentityInv] using h
  | connectionUpdate u =>
    simp only [Simple.step] at hstep
    split at hstep
    · exact absurd hstep (by simp)
    · cases hstep
      have hq := simple_qrPart_identity axiosPost y.st u
      simp only [Simple.onConnectionUpdate]
      split
      · simp [Simple.IdentityInv]
      · split
        · split <;> simp [Simple.IdentityInv]
        · intro hu
          rw [hq.1] at hu
          rw [hq.2.1]
          exact h hu
  | messagesUpsert m now =>
    simp only [Simple.step] at hstep
    split at hstep
    · exact absurd hstep (by simp)
    · cases hstep
      simpa [simple_onMessagesUpsert_state] using h
  | userChanged user =>
    simp only [Simple.step] at hstep
    split at hstep
    · exact absurd hstep (by simp)
    · cases hstep
      exact h

theorem simple_run_identityInv (loggedOut : Int) (axiosPost : AxiosPost)
    (as : List Simple.Action) (y y2 : Simple.Sys) (h : Simple.IdentityInv y.st)
    (hrun : Simple.run loggedOut axiosPost y as = some y2) : Simple.IdentityInv y2.st := by
  induction as generalizing y with
  | nil =>
    simp only [Simple.run, Option.some.injEq] at hrun
    exact hrun ▸ h
  | cons a as ih =>
    simp only [Simple.run] at hrun
    cases hs : Simple.step loggedOut axiosPost y a with
    | none => simp [hs] at hrun
    | some y1 =>
      simp only [hs] at hrun
      exact ih y1 (simple_step_identityInv loggedOut axiosPost y y1 a h hs) hrun

/-- C5, as stated, fails. In `whatsapp_baileys.js` a client is created for the stored
account, the transport opens the connection and then closes it with the logged-out
status code: `/status` reports `connected: false`, `status: 'disconnected'` and still
the account as `user`. In `whatsapp_baileys_simple.js` a pairing payload delivered
after the connection opened leaves `status: 'qr_ready'` with `connected: true` and
the account as `user`, so there the identity is tied to `connected`, not to `status`. -/
theorem identity_only_when_connected_fails :
    (Baileys.run 401 (fun _ _ => some (.ok ())) Baileys.Sys.initial
        [ .timerFires (.ok (some { id := some "5511999999999:1@s.whatsapp.net", name := none })),
          .connectionUpdate { connection := some "open", lastDisconnect := none, qr := none },
          .connectionUpdate
            { connection := some "close",
              lastDisconnect := some { error := some { output := some { statusCode := some 401 } } },
              qr := none } ]).map (fun y => Baileys.getStatus y.st)
      = some { connected := false, status := "disconnected", qr_available := false,
               user := some { id := some "5511999999999:1@s.whatsapp.net", name := none } }
    ∧ (Simple.run 401 (fun _ _ => some (.ok ())) Simple.Sys.initial
        [ .timerFires (.ok (some { id := some "5511999999999:1@s.whatsapp.net", name := none })),
          .connectionUpdate { connection := some "open", lastDisconnect := none, qr := none },
          .connectionUpdate { connection := none, lastDisconnect := none, qr := some "2@pair" }
        ]).map (fun y => Simple.getStatus y.st)
      = some { connected := true, status := "qr_ready", qr_available := true,
               user := some { id := some "5511999999999:1@s.whatsapp.net", name := none } } := by
  decide

/-- C5, amended. In every reachable state of `whatsapp_baileys_simple.js`, the `user`
reported by `/status` is non-null only when `/status` reports `connected: true`
(`isConnected`); and after a close event, whatever its reason and the state it is
processed in, `/status` reports `connected: false`, `status: 'disconnected'` and
`user: null`. -/
theorem simple_identity_only_when_connected (loggedOut : Int) (axiosPost : AxiosPost)
    (y : Simple.Sys) (u : ConnectionUpdate) (hy : Simple.Reachable loggedOut y)
    (hu : u.connection = some "close") :
    ((Simple.getStatus y.st).user ≠ none → (Simple.getStatus y.st).connected = true)
      ∧ (Simple.getStatus (Simple.onConnectionUpdate loggedOut axiosPost y.st u).state).connected
          = false
      ∧ (Simple.getStatus (Simple.onConnectionUpdate loggedOut axiosPost y.st u).state).status
          = "disconnected"
      ∧ (Simple.getStatus (Simple.onConnectionUpdate loggedOut axiosPost y.st u).state).user
          = none := by
  obtain ⟨p, as, hr⟩ := hy
  have inv : Simple.IdentityInv y.st :=
    simple_run_identityInv loggedOut p as Simple.Sys.initial y (fun h => absurd rfl h) hr
  refine ⟨inv, ?_, ?_, ?_⟩ <;> simp [Simple.getStatus, Simple.onConnectionUpdate, hu]

/-- The statement of C5, amended, at the connected session reached when the first
client opens the connection, closed with the logged-out status code. -/
theorem simple_identity_only_when_connected_witness :
    (Simple.getStatus (Simple.onConnectionUpdate 401 (fun _ _ => some (.ok ()))
        { socket := some { ref := 0,
                           user := some { id := some "5511999999999:1@s.whatsapp.net",
                                          name := none } },
          qrCodeData := none, isConnected := true, connectionStatus := "connected",
          userInfo := some { id := some "5511999999999:1@s.whatsapp.net", name := none } }
        { connection := some "close",
          lastDisconnect := some { error := some { output := some { statusCode := some 401 } } },
          qr := none }).state).user = none :=
  (simple_identity_only_when_connected 401 (fun _ _ => some (.ok ()))
    { st := { socket := some { ref := 0,
                               user := some { id := some "5511999999999:1@s.whatsapp.net",
                                              name := none } },
              qrCodeData := none, isConnected := true, connectionStatus := "connected",
              userInfo := some { id := some "5511999999999:1@s.whatsapp.net", name := none } },
      pending := 0, sockets := 1 }
    { connection := some "close",
      lastDisconnect := some { error := some { output := some { statusCode := some 401 } } },
      qr := none }
    ⟨fun _ _ => some (.ok ()),
      [ .timerFires (.ok (some { id := some "5511999999999:1@s.whatsapp.net", name := none })),
        .connectionUpdate { connection := some "open", lastDisconnect := none, qr := none } ],
      by decide⟩
    rfl).2.2.2

/-! ## The connect and disconnect commands of `whatsapp_baileys.js` -/

/-- C6, as stated, fails. In the pairing-pending state reached when the first client
delivers a pairing payload (a client exists, `connectionStatus` is `'qr_ready'`),
`POST /connect` calls `makeWASocket` again and replaces the client. -/
theorem connect_while_pairing_creates_client :
    (Baileys.run 401 (fun _ _ => some (.ok ())) Baileys.Sys.initial
        [ .timerFires (.ok none),
          .connectionUpdate { connection := none, lastDisconnect := none, qr := some "2@pair" } ])
      = some { st := { socket := some { ref := 0, user := none }, qrCodeData := some "2@pair",
                       isConnected := false, connectionStatus := "qr_ready" },
               pending := 0, sockets := 1 }
    ∧ (Baileys.postConnect (fun _ _ => some (.ok ())) 1 (.ok none)
        { socket := some { ref := 0, user := none }, qrCodeData := some "2@pair",
          isConnected := false, connectionStatus := "qr_ready" }).effects = [Effect.makeWASocket]
    ∧ (Baileys.postConnect (fun _ _ => some (.ok ())) 1 (.ok none)
        { socket := some { ref := 0, user := none }, qrCodeData := some "2@pair",
          isConnected := false, connectionStatus := "qr_ready" }).state.socket
        = some { ref := 1, user := none } := by
  decide

/-- C6, amended. For every state of `whatsapp_baileys.js` in which the session is
connected (`isConnected` is true), `POST /connect` makes no external call (so no
`makeWASocket`), leaves every variable as it was and answers with success. -/
theorem connect_when_connected_is_noop (axiosPost : AxiosPost) (fresh : Nat) (r : SetupResult)
    (s : Baileys.State) (h : s.isConnected = true) :
    (Baileys.postConnect axiosPost fresh r s).state = s
      ∧ (Baileys.postConnect axiosPost fresh r s).effects = []
      ∧ (Baileys.postConnect axiosPost fresh r s).response
          = some { status := 200, body := .success (some "Já conectado") }
      ∧ (Baileys.postConnect axiosPost fresh r s).raised = none := by
  simp [Baileys.postConnect, h]

/-- The statement of C6, amended, at a connected session. -/
theorem connect_when_connected_is_noop_witness :
    (Baileys.postConnect (fun _ _ => some (.ok ())) 1 (.ok none)
        { socket := some { ref := 0, user := none }, qrCodeData := none, isConnected := true,
          connectionStatus := "connected" }).effects = [] :=
  (connect_when_connected_is_noop (fun _ _ => some (.ok ())) 1 (.ok none)
    { socket := some { ref := 0, user := none }, qrCodeData := none, isConnected := true,
      connectionStatus := "connected" } rfl).2.1

/-- C7, as stated, fails. At a connected session whose `socket.logout()` rejects,
`POST /disconnect` makes the logout call and stops: the session is still connected,
the identity is still reported and no response is sent. -/
theorem disconnect_with_failing_logout :
    (Baileys.postDisconnect (.error "Connection Closed")
        { socket := some { ref := 0, user := some { id := some "5511999999999:1", name := none } },
          qrCodeData := none, isConnected := true, connectionStatus := "connected" }).effects
      = [Effect.logout]
    ∧ Baileys.getStatus (Baileys.postDisconnect (.error "Connection Closed")
        { socket := some { ref := 0, user := some { id := some "5511999999999:1", name := none } },
          qrCodeData := none, isConnected := true, connectionStatus := "connected" }).state
      = { connected := true, status := "connected", qr_available := false,
          user := some { id := some "5511999999999:1", name := none } }
    ∧ (Baileys.postDisconnect (.error "Connection Closed")
        { socket := some { ref := 0, user := some { id := some "5511999999999:1", name := none } },
          qrCodeData := none, isConnected := true, connectionStatus := "connected" }).response
      = none := by
  decide

/-- C7, amended. For every state of `whatsapp_baileys.js` in which a transport client
exists, `POST /disconnect` makes exactly one external call, the logout; and when that
call completes, the session is left disconnected (`isConnected` false,
`connectionStatus` `'disconnected'`), without client, with `qr_available` false and
`user` null in `/status`, and the answer is success. -/
theorem disconnect_logs_out_once (logout : Except String Unit) (s : Baileys.State)
    (h : s.socket ≠ none) :
    (Baileys.postDisconnect logout s).effects = [Effect.logout]
      ∧ (logout = .ok () →
          (Baileys.postDisconnect logout s).state
              = { socket := none, qrCodeData := none, isConnected := false,
                  connectionStatus := "disconnected" }
            ∧ Baileys.getStatus (Baileys.postDisconnect logout s).state
              = { connected := false, status := "disconnected", qr_available := false,
                  user := none }
            ∧ (Baileys.postDisconnect logout s).response
              = some { status := 200, body := .success (some "Desconectado") }
            ∧ (Baileys.postDisconnect logout s).raised = none) := by
  cases hs : s.socket with
  | none => exact absurd hs h
  | some sock =>
    cases logout with
    | error e => simp [Baileys.postDisconnect, hs]
    | ok v => simp [Baileys.postDisconnect, hs, Baileys.getStatus, strTruthy]

/-- The statement of C7, amended, at a connected session whose logout completes. -/
theorem disconnect_logs_out_once_witness :
    Baileys.getStatus (Baileys.postDisconnect (.ok ())
        { socket := some { ref := 0, user := some { id := some "5511999999999:1", name := none } },
          qrCodeData := none, isConnected := true, connectionStatus := "connected" }).state
      = { connected := false, status := "disconnected", qr_available := false, user := none } :=
  ((disconnect_logs_out_once (.ok ())
    { socket := some { ref := 0, user := some { id := some "5511999999999:1", name := none } },
      qrCodeData := none, isConnected := true, connectionStatus := "connected" }
    (by decide)).2 rfl).2.1

/-- C8, as stated, fails. The disconnected state a close event with the logged-out
status code leaves behind still has its client, and `POST /disconnect` then calls
`logout` on it and drops the client. -/
theorem disconnect_after_close_logs_out :
    (Baileys.run 401 (fun _ _ => some (.ok ())) Baileys.Sys.initial
        [ .timerFires (.ok none),
          .connectionUpdate
            { connection := some "close",
              lastDisconnect := some { error := some { output := some { statusCode := some 401 } } },
              qr := none } ])
      = some { st := { socket := some { ref := 0, user := none }, qrCodeData := none,
                       isConnected := false, connectionStatus := "disconnected" },
               pending := 0, sockets := 1 }
    ∧ (Baileys.postDisconnect (.ok ())
        { socket := some { ref := 0, user := none }, qrCodeData := none,
          isConnected := false, connectionStatus := "disconnected" }).effects = [Effect.logout]
    ∧ (Baileys.postDisconnect (.ok ())
        { socket := some { ref := 0, user := none }, qrCodeData := none,
          isConnected := false, connectionStatus := "disconnected" }).state.socket = none := by
  decide

/-- C8, amended. For every state of `whatsapp_baileys.js` in which no transport client
exists (`socket` is null: before the first client is created, or after an earlier
`/disconnect` whose logout completed), `POST /disconnect` makes no external call (so
no logout), leaves every variable as it was and answers with success. -/
theorem disconnect_without_client_is_noop (logout : Except String Unit) (s : Baileys.State)
    (h : s.socket = none) :
    (Baileys.postDisconnect logout s).state = s
      ∧ (Baileys.postDisconnect logout s).effects = []
      ∧ (Baileys.postDisconnect logout s).response
          = some { status := 200, body := .success (some "Desconectado") }
      ∧ (Baileys.postDisconnect logout s).raised = none := by
  simp [Baileys.postDisconnect, h]

/-- The statement of C8, amended, at the state an earlier `/disconnect` leaves. -/
theorem disconnect_without_client_is_noop_witness :
    (Baileys.postDisconnect (.ok ())
        (Baileys.postDisconnect (.ok ())
          { socket := some { ref := 0, user := none }, qrCodeData := none, isConnected := true,
            connectionStatus := "connected" }).state).effects = [] :=
  (disconnect_without_client_is_noop (.ok ())
    (Baileys.postDisconnect (.ok ())
      { socket := some { ref := 0, user := none }, qrCodeData := none, isConnected := true,
        connectionStatus := "connected" }).state rfl).2.1

/-! ## Transport open events -/

theorem splitHeadChars_before_sep (sep : Char) (a b : List Char) (h : sep ∉ a) :
    splitHeadChars sep (a ++ sep :: b) = a := by
  induction a with
  | nil => simp [splitHeadChars]
  | cons c cs ih =>
    have hc : c ≠ sep := fun e => h (by simp [e])
    have hcs : sep ∉ cs := fun e => h (by simp [e])
    simp [splitHeadChars, hc, ih hcs]

theorem baileys_qrPart_frame (axiosPost : AxiosPost) (s : Baileys.State)
    (u : ConnectionUpdate) :
    (Baileys.qrPart axiosPost s u).state.socket = s.socket
      ∧ (Baileys.qrPart axiosPost s u).state.isConnected = s.isConnected
      ∧ (posts (Baileys.qrPart axiosPost s u).effects).filter
          (fun n => decide (n.1 = "http://localhost:5000/webhook/connected")) = [] := by
  unfold Baileys.qrPart
  split
  · split
    · refine ⟨rfl, rfl, ?_⟩
      have hne : "http://localhost:5000" ++ "/webhook/qr-ready"
          ≠ "http://localhost:5000/webhook/connected" := by decide
      simp [baileys_notifyFlask_eq, posts, List.filter, hne]
    · exact ⟨rfl, rfl, rfl⟩
  · exact ⟨rfl, rfl, rfl⟩

theorem simple_qrPart_frame (axiosPost : AxiosPost) (s : Simple.State)
    (u : ConnectionUpdate) :
    (Simple.qrPart axiosPost s u).state.socket = s.socket
      ∧ (posts (Simple.qrPart axiosPost s u).effects).filter
          (fun n => decide (n.1 = "http://localhost:5000/api/connected")) = [] := by
  unfold Simple.qrPart
  split
  · split
    · refine ⟨rfl, ?_⟩
      have hne : "http://localhost:5000" ++ "/api/qr-updated"
          ≠ "http://localhost:5000/api/connected" := by decide
      simp [simple_notifyFlask_eq, posts, List.filter, hne]
    · exact ⟨rfl, rfl⟩
  · exact ⟨rfl, rfl⟩

/-- An open event processed while a transport client exists, by
`whatsapp_baileys_simple.js` whatever the backend does and by `whatsapp_baileys.js`
when the backend answers its POSTs: the session becomes connected (`isConnected`
true, `connectionStatus` `'connected'`, `qrCodeData` null), nothing is raised, and
exactly one notification goes to the `connected` endpoint, with `phone` computed from
`socket.user` by `connectedPhone`. -/
theorem open_with_client_connects_and_notifies (loggedOut : Int)
    (answer : String → Payload → Except String Unit) (axiosPost : AxiosPost)
    (sb : Baileys.State) (ss : Simple.State) (sock : Socket) (u : ConnectionUpdate)
    (hu : u.connection = some "open") (hb : sb.socket = some sock) (hs : ss.socket = some sock) :
    ((Baileys.onConnectionUpdate loggedOut (settled answer) sb u).state
        = { socket := some sock, qrCodeData := none, isConnected := true,
            connectionStatus := "connected" }
      ∧ (Baileys.onConnectionUpdate loggedOut (settled answer) sb u).raised = none
      ∧ (posts (Baileys.onConnectionUpdate loggedOut (settled answer) sb u).effects).filter
          (fun n => decide (n.1 = "http://localhost:5000/webhook/connected"))
        = [("http://localhost:5000/webhook/connected",
            Payload.connected (connectedPhone sock.user) sock.user)])
    ∧ ((Simple.onConnectionUpdate loggedOut axiosPost ss u).state
        = { socket := some sock, qrCodeData := none, isConnected := true,
            connectionStatus := "connected", userInfo := sock.user }
      ∧ (Simple.onConnectionUpdate loggedOut axiosPost ss u).raised = none
      ∧ (posts (Simple.onConnectionUpdate loggedOut axiosPost ss u).effects).filter
          (fun n => decide (n.1 = "http://localhost:5000/api/connected"))
        = [("http://localhost:5000/api/connected",
            Payload.connected (connectedPhone sock.user) sock.user)]) := by
  have hne : ¬ (some "open" : Option String) = some "close" := by decide
  have fb := baileys_qrPart_frame (settled answer) sb u
  have fs := simple_qrPart_frame axiosPost ss u
  have fc := baileys_qrPart_completes answer sb u
  refine ⟨⟨?_, ?_, ?_⟩, ⟨?_, ?_, ?_⟩⟩
  · simp [Baileys.onConnectionUpdate, hu, fb.1, fb.2.1, hb, fc]
  · simp [Baileys.onConnectionUpdate, hu, fb.1, hb, fc]
  · simp only [Baileys.onConnectionUpdate, hu, hne, if_false, if_true, fb.1, hb, fc,
      Bool.true_eq_false]
    rw [posts_append, List.filter_append, fb.2.2, baileys_notifyFlask_eq]
    simp [posts]
  · simp [Simple.onConnectionUpdate, hu, fs.1, hs]
  · simp [Simple.onConnectionUpdate, hu, fs.1, hs]
  · simp only [Simple.onConnectionUpdate, hu, hne, if_false, if_true, fs.1, hs]
    rw [posts_append, List.filter_append, fs.2, simple_notifyFlask_eq]
    simp [posts]

/-- The phone of the `connected` notification: the part of the user id before its
first `':'`, and `'unknown'` when the user, its id or that part is missing or empty. -/
theorem connectedPhone_spec (a b : List Char) (name : Option String) (h : ':' ∉ a)
    (ha : a ≠ []) :
    connectedPhone (some { id := some (String.mk (a ++ ':' :: b)), name := name }) = String.mk a
      ∧ connectedPhone (some { id := some "5511999999999:1", name := name }) = "5511999999999"
      ∧ connectedPhone none = "unknown"
      ∧ connectedPhone (some { id := none, name := name }) = "unknown"
      ∧ connectedPhone (some { id := some "", name := name }) = "unknown"
      ∧ connectedPhone (some { id := some ":1", name := name }) = "unknown" := by
  refine ⟨?_, rfl, rfl, rfl, rfl, rfl⟩
  have hsplit : jsSplitHead (String.mk (a ++ ':' :: b)) ':' = String.mk a := by
    simp [jsSplitHead, splitHeadChars_before_sep ':' a b h]
  have hne : String.mk a ≠ "" := by
    intro e
    exact ha (congrArg String.data e)
  simp [connectedPhone, hsplit, hne]

/-- C9 at the failing input. In `whatsapp_baileys.js` a first client delivers a
pairing payload, `POST /connect` creates a second client, `POST /disconnect` logs
that one out and sets `socket` to null; the first client then opens the connection.
The listener marks the session connected, reads `socket.user` on null and raises:
no `connected` notification is attempted. -/
theorem open_without_client_raises :
    (Baileys.run 401 (fun _ _ => some (.ok ())) Baileys.Sys.initial
        [ .timerFires (.ok none),
          .connectionUpdate { connection := none, lastDisconnect := none, qr := some "2@pair" },
          .connect (.ok none),
          .disconnect (.ok ()) ])
      = some { st := { socket := none, qrCodeData := none, isConnected := false,
                       connectionStatus := "disconnected" },
               pending := 0, sockets := 2 }
    ∧ (Baileys.onConnectionUpdate 401 (fun _ _ => some (.ok ()))
        { socket := none, qrCodeData := none, isConnected := false,
          connectionStatus := "disconnected" }
        { connection := some "open", lastDisconnect := none, qr := none }).raised
      = some typeError
    ∧ posts (Baileys.onConnectionUpdate 401 (fun _ _ => some (.ok ()))
        { socket := none, qrCodeData := none, isConnected := false,
          connectionStatus := "disconnected" }
        { connection := some "open", lastDisconnect := none, qr := none }).effects = []
    ∧ (Baileys.onConnectionUpdate 401 (fun _ _ => some (.ok ()))
        { socket := none, qrCodeData := none, isConnected := false,
          connectionStatus := "disconnected" }
        { connection := some "open", lastDisconnect := none, qr := none }).state
      = { socket := none, qrCodeData := none, isConnected := true,
          connectionStatus := "connected" } := by
  decide

/-! ## Inbound messages -/

theorem startsWithChars_self (pat rest : List Char) :
    startsWithChars pat (pat ++ rest) = true := by
  induction pat with
  | nil => rfl
  | cons p ps ih => simp [startsWithChars, ih]

theorem replaceFirstChars_suffix (p : Char) (ps u : List Char) (h : p ∉ u) :
    replaceFirstChars (p :: ps) [] (u ++ (p :: ps)) = u := by
  induction u with
  | nil =>
    have hs : startsWithChars (p :: ps) (p :: ps) = true := by
      simpa using startsWithChars_self (p :: ps) []
    simp [replaceFirstChars, hs]
  | cons c cs ih =>
    have hc : p ≠ c := fun e => h (by simp [e])
    have hcs : p ∉ cs := fun e => h (by simp [e])
    simp [replaceFirstChars, startsWithChars, hc, ih hcs]

theorem jsReplaceFirst_domain (u : String) (h : '@' ∉ u.data) :
    jsReplaceFirst (u ++ "@s.whatsapp.net") "@s.whatsapp.net" "" = u := by
  have e : (u ++ "@s.whatsapp.net").data = u.data ++ ('@' :: "s.whatsapp.net".data) := by
    simp [String.data_append]
  unfold jsReplaceFirst
  rw [e]
  exact congrArg String.mk
    (replaceFirstChars_suffix '@' "s.whatsapp.net".data u.data h)

theorem strOr_empty (x : Option String) : strOr x "" = x.getD "" := by
  cases x with
  | none => rfl
  | some v => by_cases h : v = "" <;> simp [strOr, h]

theorem baileys_text_eq (c : MessageContent) :
    strOr c.conversation
      (strOr (match c.extendedTextMessage with
              | some ext => ext.text
              | none => none) "") = specText c := by
  rw [strOr_empty]
  unfold specText
  cases c.conversation with
  | none => cases c.extendedTextMessage <;> simp [strOr]
  | some t =>
    by_cases h : t = ""
    · cases c.extendedTextMessage <;> simp [strOr, h]
    · simp [strOr, h]

theorem baileys_upsert_notifies (axiosPost : AxiosPost) (now : String) (s : Baileys.State)
    (msg : WAMessage) (content : MessageContent) (jid : String)
    (hfrom : msg.key.fromMe ≠ some true) (hmsg : msg.message = some content)
    (htext : specText content ≠ "") (hjid : msg.key.remoteJid = some jid) :
    (Baileys.onMessagesUpsert axiosPost now s { messages := [msg] }).effects
        = [Effect.post "http://localhost:5000/webhook/message-received"
            (Payload.messageReceived (jsReplaceFirst jid "@s.whatsapp.net" "") (specText content)
              (msg.pushName.getD "") msg.key.id now)]
      ∧ (Baileys.onMessagesUpsert axiosPost now s { messages := [msg] }).raised = none := by
  unfold Baileys.onMessagesUpsert
  simp only [hmsg, baileys_text_eq, hjid, baileys_notifyFlask_eq]
  simp only [ne_eq, hfrom, htext, not_false_eq_true, if_true, strOr_empty]
  exact ⟨rfl, trivial⟩

theorem baileys_upsert_silent (axiosPost : AxiosPost) (now : String) (s : Baileys.State)
    (msg : WAMessage)
    (h : msg.key.fromMe = some true ∨ msg.message = none
      ∨ ∃ content, msg.message = some content ∧ specText content = "") :
    (Baileys.onMessagesUpsert axiosPost now s { messages := [msg] }).effects = []
      ∧ (Baileys.onMessagesUpsert axiosPost now s { messages := [msg] }).raised = none := by
  unfold Baileys.onMessagesUpsert
  by_cases hf : msg.key.fromMe = some true
  · simp [hf]
  · rcases h with h | h | ⟨content, hm, ht⟩
    · exact absurd h hf
    · simp [hf, h]
    · simp [hf, hm, baileys_text_eq, ht]

theorem simple_upsert_notifies (axiosPost : AxiosPost) (now : String) (s : Simple.State)
    (msg : WAMessage) (content : MessageContent) (jid : String)
    (hfrom : msg.key.fromMe ≠ some true) (hmsg : msg.message = some content)
    (htext : specText content ≠ "") (hjid : msg.key.remoteJid = some jid) (hne : jid ≠ "") :
    (Simple.onMessagesUpsert axiosPost now s { messages := [msg] }).effects
        = [Effect.post "http://localhost:5000/api/message-received"
            (Payload.messageReceived (jsReplaceFirst jid "@s.whatsapp.net" "") (specText content)
              (msg.pushName.getD "") msg.key.id now)]
      ∧ (Simple.onMessagesUpsert axiosPost now s { messages := [msg] }).raised = none := by
  unfold Simple.onMessagesUpsert
  simp only [hmsg, hjid, simple_notifyFlask_eq, strOr_empty]
  simp only [ne_eq, hfrom, not_false_eq_true, if_true]
  unfold specText at htext ⊢
  cases hc : content.conversation with
  | none =>
    cases he : content.extendedTextMessage with
    | none => simp [hc, he] at htext
    | some e =>
      cases ht : e.text with
      | none => simp [hc, he, ht] at htext
      | some x =>
        have hx : x ≠ "" := by simpa [hc, he, ht] using htext
        simp [strTruthy, hx, hne, ht]
  | some t =>
    by_cases h0 : t = ""
    · cases he : content.extendedTextMessage with
      | none => simp [hc, he, h0] at htext
      | some e =>
        cases ht : e.text with
        | none => simp [hc, he, ht, h0] at htext
        | some x =>
          have hx : x ≠ "" := by simpa [hc, he, ht, h0] using htext
          simp [strTruthy, hx, hne, ht, h0]
    · simp [strTruthy, h0, hne]

theorem simple_upsert_silent (axiosPost : AxiosPost) (now : String) (s : Simple.State)
    (msg : WAMessage)
    (h : msg.key.fromMe = some true ∨ msg.message = none
      ∨ ∃ content, msg.message = some content ∧ specText content = "") :
    (Simple.onMessagesUpsert axiosPost now s { messages := [msg] }).effects = []
      ∧ (Simple.onMessagesUpsert axiosPost now s { messages := [msg] }).raised = none := by
  unfold Simple.onMessagesUpsert
  by_cases hf : msg.key.fromMe = some true
  · simp [hf]
  · rcases h with h | h | ⟨content, hm, ht⟩
    · exact absurd h hf
    · simp [hf, h]
    · simp only [hm, ne_eq, hf, not_false_eq_true, if_true]
      unfold specText at ht
      cases hc : content.conversation with
      | none =>
        cases he : content.extendedTextMessage with
        | none => cases msg.key.remoteJid <;> simp [strTruthy]
        | some e =>
          cases hx : e.text with
          | none => simp [strTruthy, hx]
          | some x =>
            have : x = "" := by simpa [hc, he, hx] using ht
            cases msg.key.remoteJid <;> simp [strTruthy, this, hx]
      | some t =>
        by_cases h0 : t = ""
        · cases he : content.extendedTextMessage with
          | none => cases msg.key.remoteJid <;> simp [strTruthy, h0]
          | some e =>
            cases hx : e.text with
            | none => simp [strTruthy, h0, hx]
            | some x =>
              have : x = "" := by simpa [hc, he, hx, h0] using ht
              cases msg.key.remoteJid <;> simp [strTruthy, this, hx, h0]
        · simp [hc, h0] at ht

/-- C10, as stated, fails. A message that is not `fromMe` and carries the text `"oi"`
but no sender address (`key.remoteJid` absent) is not notified: the listener of
`whatsapp_baileys_simple.js` skips it, the one of `whatsapp_baileys.js` raises on
`phoneNumber.replace`. -/
theorem inbound_without_sender_not_notified :
    (Simple.onMessagesUpsert (fun _ _ => some (.ok ())) "2024-01-01T00:00:00.000Z" Simple.State.initial
        { messages := [{ key := { remoteJid := none, fromMe := some false, id := some "3EB0" },
                         message := some { conversation := some "oi",
                                           extendedTextMessage := none },
                         pushName := some "Ana" }] }).effects = []
    ∧ (Baileys.onMessagesUpsert (fun _ _ => some (.ok ())) "2024-01-01T00:00:00.000Z"
        Baileys.State.initial
        { messages := [{ key := { remoteJid := none, fromMe := some false, id := some "3EB0" },
                         message := some { conversation := some "oi",
                                           extendedTextMessage := none },
                         pushName := some "Ana" }] }).effects = []
    ∧ (Baileys.onMessagesUpsert (fun _ _ => some (.ok ())) "2024-01-01T00:00:00.000Z"
        Baileys.State.initial
        { messages := [{ key := { remoteJid := none, fromMe := some false, id := some "3EB0" },
                         message := some { conversation := some "oi",
                                           extendedTextMessage := none },
                         pushName := some "Ana" }] }).raised = some typeError := by
  decide

/-- C10, amended. For a `messages.upsert` event carrying a single message, in both
services: if the message is not `fromMe`, has non-empty text (its `conversation`
field, or else its `extendedTextMessage` text) and a non-empty sender address, the
only external call is one POST to the `message-received` endpoint, with `phone` the
sender address with its first `"@s.whatsapp.net"` removed (for an address
`u@s.whatsapp.net` with no `'@'` in `u`, that is `u`), `message` that text,
`contact_name` the `pushName` or `''`, and `message_id` the key id. If the message is
`fromMe`, has no message body, or has empty text, no external call is made. In these
cases nothing is raised, and in every case the variables are left as they were. -/
theorem inbound_message_notified (axiosPost : AxiosPost) (now : String) (sb : Baileys.State)
    (ss : Simple.State) (msg : WAMessage) :
    (∀ content jid, msg.key.fromMe ≠ some true → msg.message = some content →
        specText content ≠ "" → msg.key.remoteJid = some jid → jid ≠ "" →
        ((Baileys.onMessagesUpsert axiosPost now sb { messages := [msg] }).effects
            = [Effect.post "http://localhost:5000/webhook/message-received"
                (Payload.messageReceived (jsReplaceFirst jid "@s.whatsapp.net" "")
                  (specText content) (msg.pushName.getD "") msg.key.id now)]
          ∧ (Baileys.onMessagesUpsert axiosPost now sb { messages := [msg] }).raised = none
          ∧ (Simple.onMessagesUpsert axiosPost now ss { messages := [msg] }).effects
            = [Effect.post "http://localhost:5000/api/message-received"
                (Payload.messageReceived (jsReplaceFirst jid "@s.whatsapp.net" "")
                  (specText content) (msg.pushName.getD "") msg.key.id now)]
          ∧ (Simple.onMessagesUpsert axiosPost now ss { messages := [msg] }).raised = none))
      ∧ ((msg.key.fromMe = some true ∨ msg.message = none
            ∨ ∃ content, msg.message = some content ∧ specText content = "") →
        ((Baileys.onMessagesUpsert axiosPost now sb { messages := [msg] }).effects = []
          ∧ (Baileys.onMessagesUpsert axiosPost now sb { messages := [msg] }).raised = none
          ∧ (Simple.onMessagesUpsert axiosPost now ss { messages := [msg] }).effects = []
          ∧ (Simple.onMessagesUpsert axiosPost now ss { messages := [msg] }).raised = none))
      ∧ (Baileys.onMessagesUpsert axiosPost now sb { messages := [msg] }).state = sb
      ∧ (Simple.onMessagesUpsert axiosPost now ss { messages := [msg] }).state = ss
      ∧ (∀ u : String, '@' ∉ u.data →
          jsReplaceFirst (u ++ "@s.whatsapp.net") "@s.whatsapp.net" "" = u) := by
  refine ⟨?_, ?_, baileys_onMessagesUpsert_state _ _ _ _, simple_onMessagesUpsert_state _ _ _ _,
    jsReplaceFirst_domain⟩
  · intro content jid hfrom hmsg htext hjid hne
    have hb := baileys_upsert_notifies axiosPost now sb msg content jid hfrom hmsg htext hjid
    have hs := simple_upsert_notifies axiosPost now ss msg content jid hfrom hmsg htext hjid hne
    exact ⟨hb.1, hb.2, hs.1, hs.2⟩
  · intro h
    have hb := baileys_upsert_silent axiosPost now sb msg h
    have hs := simple_upsert_silent axiosPost now ss msg h
    exact ⟨hb.1, hb.2, hs.1, hs.2⟩

/-- The statement of C10, amended, at the message `"oi"` of `5511999999999`, received
by the freshly started services. -/
theorem inbound_message_notified_witness :
    (Baileys.onMessagesUpsert (fun _ _ => some (.ok ())) "2024-01-01T00:00:00.000Z"
        Baileys.State.initial
        { messages := [{ key := { remoteJid := some "5511999999999@s.whatsapp.net",
                                  fromMe := some false, id := some "3EB0" },
                         message := some { conversation := some "oi",
                                           extendedTextMessage := none },
                         pushName := some "Ana" }] }).effects
      = [Effect.post "http://localhost:5000/webhook/message-received"
          (Payload.messageReceived "5511999999999" "oi" "Ana" (some "3EB0")
            "2024-01-01T00:00:00.000Z")] :=
  ((inbound_message_notified (fun _ _ => some (.ok ())) "2024-01-01T00:00:00.000Z"
      Baileys.State.initial Simple.State.initial
      { key := { remoteJid := some "5511999999999@s.whatsapp.net", fromMe := some false,
                 id := some "3EB0" },
        message := some { conversation := some "oi", extendedTextMessage := none },
        pushName := some "Ana" }).1
    { conversation := some "oi", extendedTextMessage := none }
    "5511999999999@s.whatsapp.net" (by decide) rfl (by decide) rfl (by decide)).1

/-! ## Relay delivery -/

theorem baileys_notifyFlask_any_relay (p1 p2 : String → Payload → Except String Unit)
    (endpoint : String) (data : Payload) :
    Baileys.notifyFlask (settled p1) endpoint data
      = Baileys.notifyFlask (settled p2) endpoint data := by
  unfold Baileys.notifyFlask settled
  cases p1 (Baileys.FLASK_SERVER ++ endpoint) data <;>
    cases p2 (Baileys.FLASK_SERVER ++ endpoint) data <;> rfl

theorem baileys_onConnectionUpdate_any_relay (loggedOut : Int)
    (p1 p2 : String → Payload → Except String Unit) (s : Baileys.State)
    (u : ConnectionUpdate) :
    Baileys.onConnectionUpdate loggedOut (settled p1) s u
      = Baileys.onConnectionUpdate loggedOut (settled p2) s u := by
  simp only [Baileys.onConnectionUpdate, Baileys.qrPart, baileys_notifyFlask_any_relay p1 p2]

theorem simple_onConnectionUpdate_any_relay (loggedOut : Int) (p1 p2 : AxiosPost)
    (s : Simple.State) (u : ConnectionUpdate) :
    Simple.onConnectionUpdate loggedOut p1 s u = Simple.onConnectionUpdate loggedOut p2 s u := by
  simp only [Simple.onConnectionUpdate, Simple.qrPart, simple_notifyFlask_eq]

theorem baileys_onMessagesUpsert_any_relay (p1 p2 : String → Payload → Except String Unit)
    (now : String) (s : Baileys.State) (m : MessagesUpsert) :
    Baileys.onMessagesUpsert (settled p1) now s m
      = Baileys.onMessagesUpsert (settled p2) now s m := by
  simp only [Baileys.onMessagesUpsert, baileys_notifyFlask_any_relay p1 p2]

theorem simple_onMessagesUpsert_any_relay (p1 p2 : AxiosPost) (now : String)
    (s : Simple.State) (m : MessagesUpsert) :
    Simple.onMessagesUpsert p1 now s m = Simple.onMessagesUpsert p2 now s m := by
  simp only [Simple.onMessagesUpsert, simple_notifyFlask_eq]

/-- C11. Relay delivery errors are swallowed. For every state and every transport
event (`connection.update` or `messages.upsert`), in both services, whatever two
ways `p1` and `p2` the backend answers each POST (with success or with a failure),
the listener ends in the same state, sets the same reconnect timers, raises or does
not raise alike, and attempts the same notifications. -/
theorem relay_failures_swallowed (loggedOut : Int)
    (p1 p2 : String → Payload → Except String Unit) (now : String)
    (sb : Baileys.State) (ss : Simple.State) (u : ConnectionUpdate) (m : MessagesUpsert) :
    ((Baileys.onConnectionUpdate loggedOut (settled p1) sb u).state
        = (Baileys.onConnectionUpdate loggedOut (settled p2) sb u).state
      ∧ timeouts (Baileys.onConnectionUpdate loggedOut (settled p1) sb u).effects
        = timeouts (Baileys.onConnectionUpdate loggedOut (settled p2) sb u).effects
      ∧ (Baileys.onConnectionUpdate loggedOut (settled p1) sb u).raised
        = (Baileys.onConnectionUpdate loggedOut (settled p2) sb u).raised
      ∧ posts (Baileys.onConnectionUpdate loggedOut (settled p1) sb u).effects
        = posts (Baileys.onConnectionUpdate loggedOut (settled p2) sb u).effects)
    ∧ ((Baileys.onMessagesUpsert (settled p1) now sb m).state
        = (Baileys.onMessagesUpsert (settled p2) now sb m).state
      ∧ timeouts (Baileys.onMessagesUpsert (settled p1) now sb m).effects
        = timeouts (Baileys.onMessagesUpsert (settled p2) now sb m).effects
      ∧ (Baileys.onMessagesUpsert (settled p1) now sb m).raised
        = (Baileys.onMessagesUpsert (settled p2) now sb m).raised
      ∧ posts (Baileys.onMessagesUpsert (settled p1) now sb m).effects
        = posts (Baileys.onMessagesUpsert (settled p2) now sb m).effects)
    ∧ ((Simple.onConnectionUpdate loggedOut (settled p1) ss u).state
        = (Simple.onConnectionUpdate loggedOut (settled p2) ss u).state
      ∧ timeouts (Simple.onConnectionUpdate loggedOut (settled p1) ss u).effects
        = timeouts (Simple.onConnectionUpdate loggedOut (settled p2) ss u).effects
      ∧ (Simple.onConnectionUpdate loggedOut (settled p1) ss u).raised
        = (Simple.onConnectionUpdate loggedOut (settled p2) ss u).raised
      ∧ posts (Simple.onConnectionUpdate loggedOut (settled p1) ss u).effects
        = posts (Simple.onConnectionUpdate loggedOut (settled p2) ss u).effects)
    ∧ ((Simple.onMessagesUpsert (settled p1) now ss m).state
        = (Simple.onMessagesUpsert (settled p2) now ss m).state
      ∧ timeouts (Simple.onMessagesUpsert (settled p1) now ss m).effects
        = timeouts (Simple.onMessagesUpsert (settled p2) now ss m).effects
      ∧ (Simple.onMessagesUpsert (settled p1) now ss m).raised
        = (Simple.onMessagesUpsert (settled p2) now ss m).raised
      ∧ posts (Simple.onMessagesUpsert (settled p1) now ss m).effects
        = posts (Simple.onMessagesUpsert (settled p2) now ss m).effects) := by
  rw [baileys_onConnectionUpdate_any_relay loggedOut p1 p2 sb u,
    baileys_onMessagesUpsert_any_relay p1 p2 now sb m,
    simple_onConnectionUpdate_any_relay loggedOut (settled p1) (settled p2) ss u,
    simple_onMessagesUpsert_any_relay (settled p1) (settled p2) now ss m]
  exact ⟨⟨rfl, rfl, rfl, rfl⟩, ⟨rfl, rfl, rfl, rfl⟩, ⟨rfl, rfl, rfl, rfl⟩, ⟨rfl, rfl, rfl, rfl⟩⟩

/-! ## Request bodies with absent fields -/

/-- C12, as stated, fails. At a connected session, a body with a phone and no
`message` field is not rejected: both services call `sendMessage` with the
normalised address and an undefined text, and answer with success. -/
theorem send_without_message_reaches_transport :
    (Baileys.postSendMessage (fun _ _ => .ok ())
        { socket := some { ref := 0, user := none }, qrCodeData := none, isConnected := true,
          connectionStatus := "connected" }
        { phone := .str "5511999999999", message := .undefined }).effects
      = [Effect.sendMessage "5511999999999@s.whatsapp.net" .undefined]
    ∧ (Baileys.postSendMessage (fun _ _ => .ok ())
        { socket := some { ref := 0, user := none }, qrCodeData := none, isConnected := true,
          connectionStatus := "connected" }
        { phone := .str "5511999999999", message := .undefined }).response
      = some { status := 200, body := .success (some "Mensagem enviada") }
    ∧ (Simple.postSendMessage (fun _ _ => .ok ())
        { socket := some { ref := 0, user := none }, qrCodeData := none, isConnected := true,
          connectionStatus := "connected", userInfo := none }
        { phone := .str "5511999999999", message := .undefined }).effects
      = [Effect.sendMessage "5511999999999@s.whatsapp.net" .undefined]
    ∧ (Simple.postSendMessage (fun _ _ => .ok ())
        { socket := some { ref := 0, user := none }, qrCodeData := none, isConnected := true,
          connectionStatus := "connected", userInfo := none }
        { phone := .str "5511999999999", message := .undefined }).response
      = some { status := 200, body := .success (some "Mensagem enviada") } := by
  decide

/-- C12, amended. For every connected session state (`isConnected` true) and every
request body whose `phone` is absent, or is any JSON primitive other than a string,
whatever its `message`, `POST /send-message` of both services makes no external call
(so no `sendMessage`), leaves the variables as they were and answers with an error:
status 500 from the caught `TypeError`, or in `whatsapp_baileys_simple.js` status 400
when no client exists. -/
theorem send_without_phone_rejected (send : String → JSVal → Except String Unit)
    (sb : Baileys.State) (ss : Simple.State) (body : SendBody)
    (hb : sb.isConnected = true) (hs : ss.isConnected = true)
    (hp : ∀ p : String, body.phone ≠ .str p) :
    ((Baileys.postSendMessage send sb body).effects = []
      ∧ (Baileys.postSendMessage send sb body).state = sb
      ∧ (Baileys.postSendMessage send sb body).response
          = some { status := 500, body := .error typeError }
      ∧ (Baileys.postSendMessage send sb body).raised = none)
    ∧ ((Simple.postSendMessage send ss body).effects = []
      ∧ (Simple.postSendMessage send ss body).state = ss
      ∧ (Simple.postSendMessage send ss body).response
          = (if ss.socket = none then some { status := 400, body := .error "WhatsApp não conectado" }
             else some { status := 500, body := .error typeError })
      ∧ (Simple.postSendMessage send ss body).raised = none) := by
  have hj : Simple.toJid body.phone = .error typeError := by
    unfold Simple.toJid
    cases hph : body.phone with
    | str p => exact absurd hph (hp p)
    | undefined => rfl
    | null => rfl
    | bool b => rfl
    | num n => rfl
  constructor
  · unfold Baileys.postSendMessage
    cases hph : body.phone with
    | str p => exact absurd hph (hp p)
    | undefined => simp [hb]
    | null => simp [hb]
    | bool b => simp [hb]
    | num n => simp [hb]
  · unfold Simple.postSendMessage
    cases hsock : ss.socket with
    | none => simp [hs]
    | some sock => simp [hs, hj]

/-- The statement of C12, amended, at connected sessions and a body without
`phone`. -/
theorem send_without_phone_rejected_witness :
    (Baileys.postSendMessage (fun _ _ => .ok ())
        { socket := some { ref := 0, user := none }, qrCodeData := none, isConnected := true,
          connectionStatus := "connected" }
        { phone := .undefined, message := .str "oi" }).response
      = some { status := 500, body := .error typeError } :=
  (send_without_phone_rejected (fun _ _ => .ok ())
    { socket := some { ref := 0, user := none }, qrCodeData := none, isConnected := true,
      connectionStatus := "connected" }
    { socket := some { ref := 0, user := none }, qrCodeData := none, isConnected := true,
      connectionStatus := "connected", userInfo := none }
    { phone := .undefined, message := .str "oi" } rfl rfl (fun _ h => by cases h)).1.2.2.1

/-! ## Batches of inbound messages -/

theorem baileys_upsert_posts_le_one (axiosPost : AxiosPost) (now : String)
    (s : Baileys.State) (m : MessagesUpsert) :
    (posts (Baileys.onMessagesUpsert axiosPost now s m).effects).length ≤ 1 := by
  unfold Baileys.onMessagesUpsert
  cases m.messages with
  | nil => simp [posts]
  | cons message rest =>
    dsimp only
    by_cases hf : message.key.fromMe = some true
    · simp [hf, posts]
    · simp only [ne_eq, hf, not_false_eq_true, if_true]
      cases message.message with
      | none => simp [posts]
      | some content =>
        dsimp only
        split
        · cases message.key.remoteJid <;> simp [posts, baileys_notifyFlask_eq]
        · simp [posts]

theorem simple_upsert_posts_le_one (axiosPost : AxiosPost) (now : String)
    (s : Simple.State) (m : MessagesUpsert) :
    (posts (Simple.onMessagesUpsert axiosPost now s m).effects).length ≤ 1 := by
  unfold Simple.onMessagesUpsert
  cases m.messages with
  | nil => simp [posts]
  | cons message rest =>
    dsimp only
    by_cases hf : message.key.fromMe = some true
    · simp [hf, posts]
    · simp only [ne_eq, hf, not_false_eq_true, if_true]
      cases message.message with
      | none => simp [posts]
      | some content =>
        dsimp only
        split
        · split <;> simp [posts, simple_notifyFlask_eq]
        · simp [posts]

/-- C13, as stated, fails. A batch of two messages, neither `fromMe`, both with text
and sender address, gives one notification, for the first message, in both
services. -/
theorem batch_of_two_notified_once :
    posts (Baileys.onMessagesUpsert (fun _ _ => some (.ok ())) "2024-01-01T00:00:00.000Z"
        Baileys.State.initial
        { messages :=
            [ { key := { remoteJid := some "5511999999999@s.whatsapp.net", fromMe := some false,
                         id := some "3EB0" },
                message := some { conversation := some "oi", extendedTextMessage := none },
                pushName := some "Ana" },
              { key := { remoteJid := some "5511888888888@s.whatsapp.net", fromMe := some false,
                         id := some "3EB1" },
                message := some { conversation := some "tudo bem?", extendedTextMessage := none },
                pushName := some "Bia" } ] }).effects
      = [("http://localhost:5000/webhook/message-received",
          Payload.messageReceived "5511999999999" "oi" "Ana" (some "3EB0")
            "2024-01-01T00:00:00.000Z")]
    ∧ posts (Simple.onMessagesUpsert (fun _ _ => some (.ok ())) "2024-01-01T00:00:00.000Z"
        Simple.State.initial
        { messages :=
            [ { key := { remoteJid := some "5511999999999@s.whatsapp.net", fromMe := some false,
                         id := some "3EB0" },
                message := some { conversation := some "oi", extendedTextMessage := none },
                pushName := some "Ana" },
              { key := { remoteJid := some "5511888888888@s.whatsapp.net", fromMe := some false,
                         id := some "3EB1" },
                message := some { conversation := some "tudo bem?", extendedTextMessage := none },
                pushName := some "Bia" } ] }).effects
      = [("http://localhost:5000/api/message-received",
          Payload.messageReceived "5511999999999" "oi" "Ana" (some "3EB0")
            "2024-01-01T00:00:00.000Z")] := by
  decide

/-- C13, amended. Of a `messages.upsert` batch only the first message is looked at, in
both services: the listener does for the batch `msg :: rest` exactly what it does for
`msg` alone, so at most one notification is attempted per event; and when the first
message is not `fromMe` and has non-empty text and a non-empty sender address, the
one external call is the `message-received` notification for that message. -/
theorem batch_first_message_only (axiosPost : AxiosPost) (now : String) (sb : Baileys.State)
    (ss : Simple.State) (msg : WAMessage) (rest : List WAMessage) :
    Baileys.onMessagesUpsert axiosPost now sb { messages := msg :: rest }
        = Baileys.onMessagesUpsert axiosPost now sb { messages := [msg] }
      ∧ Simple.onMessagesUpsert axiosPost now ss { messages := msg :: rest }
        = Simple.onMessagesUpsert axiosPost now ss { messages := [msg] }
      ∧ (posts (Baileys.onMessagesUpsert axiosPost now sb
          { messages := msg :: rest }).effects).length ≤ 1
      ∧ (posts (Simple.onMessagesUpsert axiosPost now ss
          { messages := msg :: rest }).effects).length ≤ 1
      ∧ (∀ content jid, msg.key.fromMe ≠ some true → msg.message = some content →
          specText content ≠ "" → msg.key.remoteJid = some jid → jid ≠ "" →
          ((Baileys.onMessagesUpsert axiosPost now sb { messages := msg :: rest }).effects
              = [Effect.post "http://localhost:5000/webhook/message-received"
                  (Payload.messageReceived (jsReplaceFirst jid "@s.whatsapp.net" "")
                    (specText content) (msg.pushName.getD "") msg.key.id now)]
            ∧ (Simple.onMessagesUpsert axiosPost now ss { messages := msg :: rest }).effects
              = [Effect.post "http://localhost:5000/api/message-received"
                  (Payload.messageReceived (jsReplaceFirst jid "@s.whatsapp.net" "")
                    (specText content) (msg.pushName.getD "") msg.key.id now)])) := by
  have eb : Baileys.onMessagesUpsert axiosPost now sb { messages := msg :: rest }
      = Baileys.onMessagesUpsert axiosPost now sb { messages := [msg] } := rfl
  have es : Simple.onMessagesUpsert axiosPost now ss { messages := msg :: rest }
      = Simple.onMessagesUpsert axiosPost now ss { messages := [msg] } := rfl
  refine ⟨eb, es, baileys_upsert_posts_le_one _ _ _ _, simple_upsert_posts_le_one _ _ _ _, ?_⟩
  intro content jid hfrom hmsg htext hjid hne
  rw [eb, es]
  exact ⟨(baileys_upsert_notifies axiosPost now sb msg content jid hfrom hmsg htext hjid).1,
    (simple_upsert_notifies axiosPost now ss msg content jid hfrom hmsg htext hjid hne).1⟩

/-- The statement of C13, amended, at a batch of two messages received by the freshly
started `whatsapp_baileys_simple.js`. -/
theorem batch_first_message_only_witness :
    (Simple.onMessagesUpsert (fun _ _ => some (.ok ())) "2024-01-01T00:00:00.000Z" Simple.State.initial
        { messages :=
            [ { key := { remoteJid := some "5511999999999@s.whatsapp.net", fromMe := some false,
                         id := some "3EB0" },
                message := some { conversation := some "oi", extendedTextMessage := none },
                pushName := some "Ana" },
              { key := { remoteJid := some "5511888888888@s.whatsapp.net", fromMe := some false,
                         id := some "3EB1" },
                message := some { conversation := some "tudo bem?", extendedTextMessage := none },
                pushName := some "Bia" } ] }).effects
      = [Effect.post "http://localhost:5000/api/message-received"
          (Payload.messageReceived "5511999999999" "oi" "Ana" (some "3EB0")
            "2024-01-01T00:00:00.000Z")] :=
  ((batch_first_message_only (fun _ _ => some (.ok ())) "2024-01-01T00:00:00.000Z"
      Baileys.State.initial Simple.State.initial
      { key := { remoteJid := some "5511999999999@s.whatsapp.net", fromMe := some false,
                 id := some "3EB0" },
        message := some { conversation := some "oi", extendedTextMessage := none },
        pushName := some "Ana" }
      [ { key := { remoteJid := some "5511888888888@s.whatsapp.net", fromMe := some false,
                   id := some "3EB1" },
          message := some { conversation := some "tudo bem?", extendedTextMessage := none },
          pushName := some "Bia" } ]).2.2.2.2
    { conversation := some "oi", extendedTextMessage := none }
    "5511999999999@s.whatsapp.net" (by decide) rfl (by decide) rfl (by decide)).2

/-! ## The two address computations compared -/

theorem baileys_send_effects (send : String → JSVal → Except String Unit) (s : Baileys.State)
    (p : String) (message : JSVal) (hc : s.isConnected = true) (hs : s.socket ≠ none) :
    (Baileys.postSendMessage send s { phone := .str p, message := message }).effects
      = [Effect.sendMessage (if '@' ∈ p.data then p else p ++ "@s.whatsapp.net") message] := by
  unfold Baileys.postSendMessage
  cases hsock : s.socket with
  | none => exact absurd hsock hs
  | some sock =>
    by_cases h : '@' ∈ p.data
    · have h2 : jsIncludes p "@" = true := (jsIncludes_at p).2 h
      cases hsend : send p message <;> simp [hc, h, h2, hsend]
    · have h2 : jsIncludes p "@" = false := by
        cases hb : jsIncludes p "@" with
        | false => rfl
        | true => exact absurd ((jsIncludes_at p).1 hb) h
      cases hsend : send (p ++ "@s.whatsapp.net") message <;> simp [hc, h, h2, hsend]

theorem simple_send_effects (send : String → JSVal → Except String Unit) (s : Simple.State)
    (p : String) (message : JSVal) (hc : s.isConnected = true) (hs : s.socket ≠ none) :
    (Simple.postSendMessage send s { phone := .str p, message := message }).effects
      = [Effect.sendMessage (specAddress p) message] := by
  have hsock : s.socket.isNone = false := by
    cases h : s.socket with
    | none => exact absurd h hs
    | some _ => rfl
  unfold Simple.postSendMessage
  simp only [hc, hsock, toJid_str]
  cases send (specAddress p) message <;> simp

/-- At connected sessions, the two services hand the transport the same address for a
phone string exactly when the phone contains `'@'` or consists of digits only. -/
theorem addresses_agree_iff (send : String → JSVal → Except String Unit) (sb : Baileys.State)
    (ss : Simple.State) (p : String) (message : JSVal)
    (hb : sb.isConnected = true) (hbs : sb.socket ≠ none)
    (hs : ss.isConnected = true) (hss : ss.socket ≠ none) :
    (Baileys.postSendMessage send sb { phone := .str p, message := message }).effects
        = (Simple.postSendMessage send ss { phone := .str p, message := message }).effects
      ↔ ('@' ∈ p.data ∨ ∀ c ∈ p.data, c.isDigit = true) := by
  rw [baileys_send_effects send sb p message hb hbs, simple_send_effects send ss p message hs hss]
  unfold specAddress
  by_cases h : '@' ∈ p.data
  · simp [h]
  · simp only [h, if_false, false_or, List.cons.injEq, Effect.sendMessage.injEq, and_true]
    constructor
    · intro e
      have e2 := congrArg String.data e
      simp only [String.data_append] at e2
      have e3 : p.data = p.data.filter Char.isDigit := List.append_cancel_right e2
      exact List.filter_eq_self.1 e3.symm
    · intro hall
      have e3 : p.data.filter Char.isDigit = p.data := List.filter_eq_self.2 hall
      rw [e3]

/-- C14 at the failing input. At connected sessions, for the phone
`"+55 (11) 99999-9999"` the handler of `whatsapp_baileys.js` hands the transport
`"+55 (11) 99999-9999@s.whatsapp.net"`, the one of `whatsapp_baileys_simple.js`
`"5511999999999@s.whatsapp.net"`. -/
theorem addresses_differ_on_formatted_phone :
    (Baileys.postSendMessage (fun _ _ => .ok ())
        { socket := some { ref := 0, user := none }, qrCodeData := none, isConnected := true,
          connectionStatus := "connected" }
        { phone := .str "+55 (11) 99999-9999", message := .str "oi" }).effects
      = [Effect.sendMessage "+55 (11) 99999-9999@s.whatsapp.net" (.str "oi")]
    ∧ (Simple.postSendMessage (fun _ _ => .ok ())
        { socket := some { ref := 0, user := none }, qrCodeData := none, isConnected := true,
          connectionStatus := "connected", userInfo := none }
        { phone := .str "+55 (11) 99999-9999", message := .str "oi" }).effects
      = [Effect.sendMessage "5511999999999@s.whatsapp.net" (.str "oi")] := by
  decide

end AsAReply
